import Mathlib

set_option maxRecDepth 8000

/-!
Verification of the twamp-rs TWAMP implementation against its specification.

The wire codec (deku-derived big-endian serialization), the timestamp
arithmetic, and the control/test dialogue logic are embedded as executable
Lean definitions translated from the Rust source.  Bytes are modelled as
natural numbers (wire bytes are below 256); machine-integer wraparound is
modelled explicitly with remainders modulo 2 to the relevant width, matching
the release-profile two's-complement wrapping of the compiled binary.
-/

/-- Big-endian byte encoding of a natural number into k bytes,
least-significant byte last (the layout deku emits for uN fields). -/
def natBytesBE : Nat → Nat → List Nat
  | 0, _ => []
  | k + 1, n => natBytesBE k (n / 256) ++ [n % 256]

/-- Accumulate a big-endian byte list into its numeric value. -/
def beVal (l : List Nat) : Nat := l.foldl (fun acc b => acc * 256 + b) 0

/-- Read exactly n bytes from the front of the input, returning them and
the remaining input; fails when fewer than n bytes are available
(deku's Incomplete error). -/
def readBytes (n : Nat) (bs : List Nat) : Option (List Nat × List Nat) :=
  if n ≤ bs.length then some (bs.take n, bs.drop n) else none

/-- Read an n-byte big-endian unsigned integer. -/
def readBE (n : Nat) (bs : List Nat) : Option (Nat × List Nat) :=
  match readBytes n bs with
  | none => none
  | some (f, rest) => some (beVal f, rest)

/-- Read n bytes that carry a deku assert-equal-zero attribute: parsing
fails unless every byte is zero (the MBZ receive-side assertion). -/
def expectZeros (n : Nat) (bs : List Nat) : Option (List Nat) :=
  match readBytes n bs with
  | none => none
  | some (f, rest) => if f = List.replicate n 0 then some rest else none

theorem natBytesBE_length (k n : Nat) : (natBytesBE k n).length = k := by
  induction k generalizing n with
  | zero => rfl
  | succ k ih => simp [natBytesBE, ih]

theorem natBytesBE_lt (k n : Nat) : ∀ b ∈ natBytesBE k n, b < 256 := by
  induction k generalizing n with
  | zero => simp [natBytesBE]
  | succ k ih =>
    intro b hb
    simp only [natBytesBE, List.mem_append, List.mem_singleton] at hb
    rcases hb with hb | hb
    · exact ih _ _ hb
    · subst hb; exact Nat.mod_lt _ (by norm_num)

theorem foldl_natBytesBE (k : Nat) : ∀ (n a : Nat),
    (natBytesBE k n).foldl (fun acc b => acc * 256 + b) a = a * 256 ^ k + n % 256 ^ k := by
  induction k with
  | zero => intro n a; simp [natBytesBE, Nat.mod_one]
  | succ k ih =>
    intro n a
    have hsplit : n % 256 ^ (k + 1) = (n / 256 % 256 ^ k) * 256 + n % 256 := by
      have hq := Nat.div_add_mod n 256
      have hq2 := Nat.div_add_mod (n / 256) (256 ^ k)
      have hlt : (n / 256 % 256 ^ k) * 256 + n % 256 < 256 ^ (k + 1) := by
        have h1 : n / 256 % 256 ^ k < 256 ^ k := Nat.mod_lt _ (Nat.pos_pow_of_pos k (by norm_num))
        have h2 : n % 256 < 256 := Nat.mod_lt _ (by norm_num)
        calc (n / 256 % 256 ^ k) * 256 + n % 256
            < (n / 256 % 256 ^ k) * 256 + 256 := by omega
          _ = (n / 256 % 256 ^ k + 1) * 256 := by ring
          _ ≤ 256 ^ k * 256 := Nat.mul_le_mul_right 256 (by omega)
          _ = 256 ^ (k + 1) := by ring
      have hdecomp : n = 256 ^ (k + 1) * (n / 256 / 256 ^ k) +
          ((n / 256 % 256 ^ k) * 256 + n % 256) := by
        calc n = (n / 256) * 256 + n % 256 := by omega
          _ = (256 ^ k * (n / 256 / 256 ^ k) + n / 256 % 256 ^ k) * 256 + n % 256 := by
              rw [hq2]
          _ = 256 ^ (k + 1) * (n / 256 / 256 ^ k) + ((n / 256 % 256 ^ k) * 256 + n % 256) := by
              ring
      calc n % 256 ^ (k + 1)
          = (256 ^ (k + 1) * (n / 256 / 256 ^ k) +
              ((n / 256 % 256 ^ k) * 256 + n % 256)) % 256 ^ (k + 1) := by rw [← hdecomp]
        _ = ((n / 256 % 256 ^ k) * 256 + n % 256) % 256 ^ (k + 1) := by
            simp [Nat.mul_add_mod]
        _ = (n / 256 % 256 ^ k) * 256 + n % 256 := Nat.mod_eq_of_lt hlt
    simp only [natBytesBE, List.foldl_append, List.foldl_cons, List.foldl_nil, ih]
    rw [hsplit]; ring

theorem beVal_natBytesBE (k n : Nat) (h : n < 256 ^ k) : beVal (natBytesBE k n) = n := by
  unfold beVal
  rw [foldl_natBytesBE]
  simp [Nat.mod_eq_of_lt h]

theorem readBytes_append (n : Nat) (xs rest : List Nat) (h : xs.length = n) :
    readBytes n (xs ++ rest) = some (xs, rest) := by
  subst h
  simp [readBytes, List.take_left, List.drop_left]

theorem readBE_append (n v : Nat) (rest : List Nat) (h : v < 256 ^ n) :
    readBE n (natBytesBE n v ++ rest) = some (v, rest) := by
  unfold readBE
  rw [readBytes_append n _ _ (natBytesBE_length n v)]
  simp [beVal_natBytesBE n v h]

theorem expectZeros_append (n : Nat) (rest : List Nat) :
    expectZeros n (List.replicate n 0 ++ rest) = some rest := by
  unfold expectZeros
  rw [readBytes_append n _ _ (List.length_replicate n 0)]
  simp

theorem expectZeros_fail (n : Nat) (xs rest : List Nat) (h : xs.length = n)
    (hne : xs ≠ List.replicate n 0) : expectZeros n (xs ++ rest) = none := by
  unfold expectZeros
  rw [readBytes_append n _ _ h]
  simp [hne]

/-- Accept code, one octet, from twamp_control/accept.rs. -/
inductive Accept where
  | Ok
  | Failure
  | InternalError
  | NotSupported
  | PermanentResourceLimitation
  | TemporaryResourceLimitation
deriving DecidableEq, Repr

/-- The u8 discriminant deku writes for an Accept value. -/
def Accept.toU8 : Accept → Nat
  | .Ok => 0
  | .Failure => 1
  | .InternalError => 2
  | .NotSupported => 3
  | .PermanentResourceLimitation => 4
  | .TemporaryResourceLimitation => 5

/-- Decoding a u8 into an Accept value; any other byte is a deku
enum-id mismatch error. -/
def Accept.fromU8 : Nat → Option Accept
  | 0 => some .Ok
  | 1 => some .Failure
  | 2 => some .InternalError
  | 3 => some .NotSupported
  | 4 => some .PermanentResourceLimitation
  | 5 => some .TemporaryResourceLimitation
  | _ => none

/-- Read a one-octet Accept field. -/
def readAccept (bs : List Nat) : Option (Accept × List Nat) :=
  match bs with
  | [] => none
  | b :: rest =>
    match Accept.fromU8 b with
    | none => none
    | some a => some (a, rest)

theorem readAccept_cons (a : Accept) (rest : List Nat) :
    readAccept (Accept.toU8 a :: rest) = some (a, rest) := by
  cases a <;> rfl

/-- SecurityMode, a 32-bit discriminant, from twamp_control/security_mode.rs. -/
inductive SecurityMode where
  | Reserved
  | Unauthenticated
  | Authenticated
  | Encrypted
  | EncryptedControlUnauthTest
deriving DecidableEq, Repr

/-- The u32 discriminant deku writes for a SecurityMode value. -/
def SecurityMode.toU32 : SecurityMode → Nat
  | .Reserved => 0
  | .Unauthenticated => 1
  | .Authenticated => 2
  | .Encrypted => 4
  | .EncryptedControlUnauthTest => 8

/-- Decoding a u32 into a SecurityMode; other values are enum-id errors. -/
def SecurityMode.fromU32 : Nat → Option SecurityMode
  | 0 => some .Reserved
  | 1 => some .Unauthenticated
  | 2 => some .Authenticated
  | 4 => some .Encrypted
  | 8 => some .EncryptedControlUnauthTest
  | _ => none

/-- Read a four-octet big-endian SecurityMode field. -/
def readSecurityMode (bs : List Nat) : Option (SecurityMode × List Nat) :=
  match readBE 4 bs with
  | none => none
  | some (v, rest) =>
    match SecurityMode.fromU32 v with
    | none => none
    | some m => some (m, rest)

theorem readSecurityMode_append (m : SecurityMode) (rest : List Nat) :
    readSecurityMode (natBytesBE 4 (SecurityMode.toU32 m) ++ rest) = some (m, rest) := by
  unfold readSecurityMode
  rw [readBE_append 4 _ rest (by cases m <;> norm_num [SecurityMode.toU32])]
  cases m <;> rfl

/-- CommandNumber, one octet, from twamp_control/command_number.rs. -/
inductive CommandNumber where
  | Forbidden
  | StartSessions
  | StopSessions
  | RequestTwSession
  | Experimentation
deriving DecidableEq, Repr

/-- The u8 discriminant deku writes for a CommandNumber value. -/
def CommandNumber.toU8 : CommandNumber → Nat
  | .Forbidden => 1
  | .StartSessions => 2
  | .StopSessions => 3
  | .RequestTwSession => 5
  | .Experimentation => 6

/-- Decoding a u8 into a CommandNumber; other bytes are enum-id errors. -/
def CommandNumber.fromU8 : Nat → Option CommandNumber
  | 1 => some .Forbidden
  | 2 => some .StartSessions
  | 3 => some .StopSessions
  | 5 => some .RequestTwSession
  | 6 => some .Experimentation
  | _ => none

/-- Read a one-octet CommandNumber that additionally carries a deku
assert-equal attribute fixing the expected command: a well-formed but
unexpected command number is also rejected. -/
def readCommandNumber (expected : CommandNumber) (bs : List Nat) :
    Option (CommandNumber × List Nat) :=
  match bs with
  | [] => none
  | b :: rest =>
    match CommandNumber.fromU8 b with
    | none => none
    | some c => if c = expected then some (c, rest) else none

theorem readCommandNumber_cons (c : CommandNumber) (rest : List Nat) :
    readCommandNumber c (CommandNumber.toU8 c :: rest) = some (c, rest) := by
  cases c <;> rfl

/-- NTP timestamp, two unsigned 32-bit fields, from timestamp/mod.rs. -/
structure TimeStamp where
  integer_part_of_seconds : Nat
  fractional_part_of_seconds : Nat
deriving DecidableEq, Repr

/-- Both fields fit in 32 bits. -/
def TimeStamp.wf (t : TimeStamp) : Prop :=
  t.integer_part_of_seconds < 4294967296 ∧ t.fractional_part_of_seconds < 4294967296

instance (t : TimeStamp) : Decidable (TimeStamp.wf t) := by
  unfold TimeStamp.wf; infer_instance

/-- The Add impl for TimeStamp from timestamp/mod.rs: overflowing_add on the
fractional parts, the carry added into the integer sum, and one added to the
wrapped fractional sum unconditionally (the source applies wrapping_add 1 to
fractional_sum with no carry condition).  u32 arithmetic wraps modulo 2^32. -/
def TimeStamp.add (a b : TimeStamp) : TimeStamp :=
  let fractional_sum :=
    (a.fractional_part_of_seconds + b.fractional_part_of_seconds) % 4294967296
  let fractional_carry : Nat :=
    if a.fractional_part_of_seconds + b.fractional_part_of_seconds ≥ 4294967296 then 1 else 0
  { integer_part_of_seconds :=
      (a.integer_part_of_seconds + b.integer_part_of_seconds + fractional_carry) % 4294967296
    fractional_part_of_seconds := (fractional_sum + 1) % 4294967296 }

/-- The Sub impl for TimeStamp from timestamp/mod.rs: when the fractional
part of the left operand is smaller, one is borrowed from the integer part
and u32::MAX (2^32 - 1, not 2^32) is added to the fractional part; all u32
additions and subtractions wrap modulo 2^32. -/
def TimeStamp.sub (a b : TimeStamp) : TimeStamp :=
  if a.fractional_part_of_seconds < b.fractional_part_of_seconds then
    let i := (a.integer_part_of_seconds + 4294967296 - 1) % 4294967296
    let f := (a.fractional_part_of_seconds + 4294967295) % 4294967296
    { integer_part_of_seconds := (i + 4294967296 - b.integer_part_of_seconds) % 4294967296
      fractional_part_of_seconds := (f + 4294967296 - b.fractional_part_of_seconds) % 4294967296 }
  else
    { integer_part_of_seconds :=
        (a.integer_part_of_seconds + 4294967296 - b.integer_part_of_seconds) % 4294967296
      fractional_part_of_seconds :=
        a.fractional_part_of_seconds - b.fractional_part_of_seconds }

/-- Serialization of a TimeStamp: two big-endian u32 values. -/
def TimeStamp.serialize (t : TimeStamp) : List Nat :=
  natBytesBE 4 t.integer_part_of_seconds ++ natBytesBE 4 t.fractional_part_of_seconds

/-- Read an eight-octet TimeStamp. -/
def readTimeStamp (bs : List Nat) : Option (TimeStamp × List Nat) :=
  match readBE 4 bs with
  | none => none
  | some (i, bs1) =>
    match readBE 4 bs1 with
    | none => none
    | some (f, rest) => some (⟨i, f⟩, rest)

theorem readTimeStamp_append (t : TimeStamp) (rest : List Nat) (h : t.wf) :
    readTimeStamp (TimeStamp.serialize t ++ rest) = some (t, rest) := by
  obtain ⟨h1, h2⟩ := h
  unfold readTimeStamp TimeStamp.serialize
  rw [List.append_assoc, readBE_append 4 _ _ (by norm_num; omega)]
  simp only
  rw [readBE_append 4 _ _ (by norm_num; omega)]

/-- Error-Estimate, two octets with bit-packed first byte, from
twamp_test/error_estimate.rs.  Fields: 1-bit synchronization flag s, 1-bit
mbz, 6-bit scale, 8-bit multiplier. -/
structure ErrorEstimate where
  s : Nat
  mbz : Nat
  scale : Nat
  multiplier : Nat
deriving DecidableEq, Repr

/-- Field widths, and mbz zero as the deku write-side assertion demands. -/
def ErrorEstimate.wf (e : ErrorEstimate) : Prop :=
  e.s < 2 ∧ e.mbz = 0 ∧ e.scale < 64 ∧ e.multiplier < 256

instance (e : ErrorEstimate) : Decidable (ErrorEstimate.wf e) := by
  unfold ErrorEstimate.wf; infer_instance

/-- ErrorEstimate constructor from twamp_test/error_estimate.rs. -/
def ErrorEstimate.new (ntp_synchronized : Bool) : ErrorEstimate :=
  { s := if ntp_synchronized then 1 else 0
    mbz := 0
    scale := if ntp_synchronized then 0 else 63
    multiplier := if ntp_synchronized then 1 else 255 }

/-- Serialization: first byte packs s, mbz and scale; second byte is the
multiplier. -/
def ErrorEstimate.serialize (e : ErrorEstimate) : List Nat :=
  [e.s * 128 + e.mbz * 64 + e.scale, e.multiplier]

/-- Read a two-octet ErrorEstimate.  Only the one-bit mbz field carries a
deku assertion; the multiplier byte is read without any check, so a zero
multiplier is accepted. -/
def readErrorEstimate (bs : List Nat) : Option (ErrorEstimate × List Nat) :=
  match bs with
  | b0 :: b1 :: rest =>
    if b0 / 64 % 2 = 0 then some (⟨b0 / 128 % 2, 0, b0 % 64, b1⟩, rest)
    else none
  | _ => none

theorem readErrorEstimate_append (e : ErrorEstimate) (rest : List Nat) (h : e.wf) :
    readErrorEstimate (ErrorEstimate.serialize e ++ rest) = some (e, rest) := by
  obtain ⟨h1, h2, h3, h4⟩ := h
  unfold readErrorEstimate ErrorEstimate.serialize
  simp only [List.cons_append, List.nil_append]
  have hz : (e.s * 128 + e.mbz * 64 + e.scale) / 64 % 2 = 0 := by omega
  rw [if_pos hz]
  have hs : (e.s * 128 + e.mbz * 64 + e.scale) / 128 % 2 = e.s := by omega
  have hsc : (e.s * 128 + e.mbz * 64 + e.scale) % 64 = e.scale := by omega
  rw [hs, hsc]
  cases e with
  | mk s mbz scale multiplier => simp_all

/-- Read a single octet. -/
def readU8 (bs : List Nat) : Option (Nat × List Nat) :=
  match bs with
  | [] => none
  | b :: rest => some (b, rest)

/-- Server Greeting, 64 octets, from twamp_control/server_greeting.rs.
The mode field is a u32 bitmap (bitwise OR of supported modes). -/
structure ServerGreeting where
  unused : List Nat
  mode : Nat
  challenge : List Nat
  salt : List Nat
  count : Nat
  mbz : List Nat
deriving DecidableEq, Repr

def ServerGreeting.SERIALIZED_SIZE : Nat := 64

/-- Valid in-memory instance: the deku write-side assertions require the
unused and mbz blocks to be zero; numeric fields fit their width; the
byte arrays have their declared lengths. -/
def ServerGreeting.wf (m : ServerGreeting) : Prop :=
  m.unused = List.replicate 12 0 ∧ m.mode < 4294967296 ∧
  m.challenge.length = 16 ∧ (∀ b ∈ m.challenge, b < 256) ∧
  m.salt.length = 16 ∧ (∀ b ∈ m.salt, b < 256) ∧
  m.count < 4294967296 ∧ m.mbz = List.replicate 12 0

def ServerGreeting.serialize (m : ServerGreeting) : List Nat :=
  m.unused ++ natBytesBE 4 m.mode ++ m.challenge ++ m.salt ++
    natBytesBE 4 m.count ++ m.mbz

def ServerGreeting.parse (bs : List Nat) : Option ServerGreeting :=
  match expectZeros 12 bs with
  | none => none
  | some bs1 =>
    match readBE 4 bs1 with
    | none => none
    | some (mode, bs2) =>
      match readBytes 16 bs2 with
      | none => none
      | some (challenge, bs3) =>
        match readBytes 16 bs3 with
        | none => none
        | some (salt, bs4) =>
          match readBE 4 bs4 with
          | none => none
          | some (count, bs5) =>
            match expectZeros 12 bs5 with
            | none => none
            | some _ =>
              some ⟨List.replicate 12 0, mode, challenge, salt, count,
                List.replicate 12 0⟩

theorem serverGreeting_parse_serialize (m : ServerGreeting) (rest : List Nat)
    (h : m.wf) : ServerGreeting.parse (ServerGreeting.serialize m ++ rest) = some m := by
  obtain ⟨unused, mode, challenge, salt, count, mbz⟩ := m
  obtain ⟨hu, hm, hc, _, hs, _, hcnt, hz⟩ := h
  simp only at hu hm hc hs hcnt hz
  subst hu hz
  unfold ServerGreeting.parse ServerGreeting.serialize
  simp only [List.append_assoc]
  rw [expectZeros_append]
  simp only
  rw [readBE_append 4 _ _ (by norm_num; omega)]
  simp only
  rw [readBytes_append 16 _ _ hc]
  simp only
  rw [readBytes_append 16 _ _ hs]
  simp only
  rw [readBE_append 4 _ _ (by norm_num; omega)]
  simp only
  rw [expectZeros_append]

theorem serverGreeting_serialize_length (m : ServerGreeting) (h : m.wf) :
    (ServerGreeting.serialize m).length = ServerGreeting.SERIALIZED_SIZE := by
  obtain ⟨hu, _, hc, _, hs, _, _, hz⟩ := h
  simp [ServerGreeting.serialize, ServerGreeting.SERIALIZED_SIZE, hu, hz, hc, hs,
    natBytesBE_length]

/-- Set-Up-Response, 164 octets, from twamp_control/set_up_response.rs.
None of key_id, token, client_iv carries a deku assertion: they are parsed
without any must-be-zero check. -/
structure SetUpResponse where
  mode : SecurityMode
  key_id : List Nat
  token : List Nat
  client_iv : List Nat
deriving DecidableEq, Repr

def SetUpResponse.SERIALIZED_SIZE : Nat := 164

def SetUpResponse.wf (m : SetUpResponse) : Prop :=
  m.key_id.length = 80 ∧ (∀ b ∈ m.key_id, b < 256) ∧
  m.token.length = 64 ∧ (∀ b ∈ m.token, b < 256) ∧
  m.client_iv.length = 16 ∧ (∀ b ∈ m.client_iv, b < 256)

def SetUpResponse.serialize (m : SetUpResponse) : List Nat :=
  natBytesBE 4 (SecurityMode.toU32 m.mode) ++ m.key_id ++ m.token ++ m.client_iv

def SetUpResponse.parse (bs : List Nat) : Option SetUpResponse :=
  match readSecurityMode bs with
  | none => none
  | some (mode, bs1) =>
    match readBytes 80 bs1 with
    | none => none
    | some (key_id, bs2) =>
      match readBytes 64 bs2 with
      | none => none
      | some (token, bs3) =>
        match readBytes 16 bs3 with
        | none => none
        | some (client_iv, _) => some ⟨mode, key_id, token, client_iv⟩

/-- Constructor from twamp_control/set_up_response.rs: only the Reserved and
Unauthenticated modes are accepted; all others yield a descriptive error. -/
def SetUpResponse.new (mode : SecurityMode) : Except String SetUpResponse :=
  match mode with
  | .Reserved =>
    .ok ⟨mode, List.replicate 80 0, List.replicate 64 0, List.replicate 16 0⟩
  | .Unauthenticated =>
    .ok ⟨mode, List.replicate 80 0, List.replicate 64 0, List.replicate 16 0⟩
  | _ =>
    .error ("twamp-rs ONLY supports unauthenticated mode, mode provided is "
      ++ reprStr mode)

theorem setUpResponse_parse_serialize (m : SetUpResponse) (rest : List Nat)
    (h : m.wf) : SetUpResponse.parse (SetUpResponse.serialize m ++ rest) = some m := by
  obtain ⟨mode, key_id, token, client_iv⟩ := m
  obtain ⟨hk, _, ht, _, hc, _⟩ := h
  simp only at hk ht hc
  unfold SetUpResponse.parse SetUpResponse.serialize
  simp only [List.append_assoc]
  rw [readSecurityMode_append]
  simp only
  rw [readBytes_append 80 _ _ hk]
  simp only
  rw [readBytes_append 64 _ _ ht]
  simp only
  rw [readBytes_append 16 _ _ hc]

theorem setUpResponse_serialize_length (m : SetUpResponse) (h : m.wf) :
    (SetUpResponse.serialize m).length = SetUpResponse.SERIALIZED_SIZE := by
  obtain ⟨hk, _, ht, _, hc, _⟩ := h
  simp [SetUpResponse.serialize, SetUpResponse.SERIALIZED_SIZE, hk, ht, hc,
    natBytesBE_length]

/-- Server-Start, 48 octets, from twamp_control/server_start.rs. -/
structure ServerStart where
  mbz_start : List Nat
  accept : Accept
  server_iv : List Nat
  start_time : TimeStamp
  mbz_end : List Nat
deriving DecidableEq, Repr

def ServerStart.SERIALIZED_SIZE : Nat := 48

def ServerStart.wf (m : ServerStart) : Prop :=
  m.mbz_start = List.replicate 15 0 ∧
  m.server_iv.length = 16 ∧ (∀ b ∈ m.server_iv, b < 256) ∧
  m.start_time.wf ∧ m.mbz_end = List.replicate 8 0

def ServerStart.serialize (m : ServerStart) : List Nat :=
  m.mbz_start ++ [Accept.toU8 m.accept] ++ m.server_iv ++
    TimeStamp.serialize m.start_time ++ m.mbz_end

def ServerStart.parse (bs : List Nat) : Option ServerStart :=
  match expectZeros 15 bs with
  | none => none
  | some bs1 =>
    match readAccept bs1 with
    | none => none
    | some (accept, bs2) =>
      match readBytes 16 bs2 with
      | none => none
      | some (server_iv, bs3) =>
        match readTimeStamp bs3 with
        | none => none
        | some (start_time, bs4) =>
          match expectZeros 8 bs4 with
          | none => none
          | some _ =>
            some ⟨List.replicate 15 0, accept, server_iv, start_time,
              List.replicate 8 0⟩

theorem serverStart_parse_serialize (m : ServerStart) (rest : List Nat)
    (h : m.wf) : ServerStart.parse (ServerStart.serialize m ++ rest) = some m := by
  obtain ⟨mbz_start, accept, server_iv, start_time, mbz_end⟩ := m
  obtain ⟨hm, hiv, _, hts, hz⟩ := h
  simp only at hm hiv hts hz
  subst hm hz
  unfold ServerStart.parse ServerStart.serialize
  simp only [List.append_assoc, List.cons_append, List.nil_append]
  rw [expectZeros_append]
  simp only
  rw [readAccept_cons]
  simp only
  rw [readBytes_append 16 _ _ hiv]
  simp only
  rw [readTimeStamp_append _ _ hts]
  simp only
  rw [expectZeros_append]

theorem serverStart_serialize_length (m : ServerStart) (h : m.wf) :
    (ServerStart.serialize m).length = ServerStart.SERIALIZED_SIZE := by
  obtain ⟨hm, hiv, _, _, hz⟩ := h
  simp [ServerStart.serialize, ServerStart.SERIALIZED_SIZE, hm, hz, hiv,
    TimeStamp.serialize, natBytesBE_length]

/-- Request-TW-Session, 112 octets, from twamp_control/request_tw_session.rs.
The first octet is the command number (asserted to be 5); the second octet
packs the four-bit mbz_first field (asserted zero) with the four-bit ipvn
field; the trailing mbz_last u32 is asserted zero.  The IPv4 addresses are
serialized as big-endian u32 values. -/
structure RequestTwSession where
  command_number : CommandNumber
  mbz_first : Nat
  ipvn : Nat
  conf_sender : Nat
  conf_receiver : Nat
  number_of_schedule_slots : Nat
  number_of_packets : Nat
  sender_port : Nat
  receiver_port : Nat
  sender_address : Nat
  sender_address_cont : List Nat
  receiver_address : Nat
  receiver_address_cont : List Nat
  sid : Nat
  padding_length : Nat
  start_time : TimeStamp
  timeout : Nat
  type_p_descriptor : Nat
  octets_to_be_reflected : Nat
  length_of_padding_to_reflect : Nat
  mbz_last : Nat
  hmac : List Nat
deriving DecidableEq, Repr

/-- Size constant from the repository's unit tests and the spec's message
table (the SERIALIZED_SIZE declaration itself sits in a source revision not
present under src, but the byte layout fixes it). -/
def RequestTwSession.SERIALIZED_SIZE : Nat := 112

def RequestTwSession.wf (m : RequestTwSession) : Prop :=
  m.command_number = CommandNumber.RequestTwSession ∧ m.mbz_first = 0 ∧
  m.ipvn < 16 ∧ m.conf_sender < 256 ∧ m.conf_receiver < 256 ∧
  m.number_of_schedule_slots < 4294967296 ∧ m.number_of_packets < 4294967296 ∧
  m.sender_port < 65536 ∧ m.receiver_port < 65536 ∧
  m.sender_address < 4294967296 ∧
  m.sender_address_cont.length = 12 ∧ (∀ b ∈ m.sender_address_cont, b < 256) ∧
  m.receiver_address < 4294967296 ∧
  m.receiver_address_cont.length = 12 ∧ (∀ b ∈ m.receiver_address_cont, b < 256) ∧
  m.sid < 340282366920938463463374607431768211456 ∧
  m.padding_length < 4294967296 ∧ m.start_time.wf ∧
  m.timeout < 18446744073709551616 ∧ m.type_p_descriptor < 4294967296 ∧
  m.octets_to_be_reflected < 65536 ∧ m.length_of_padding_to_reflect < 65536 ∧
  m.mbz_last = 0 ∧ m.hmac.length = 16 ∧ (∀ b ∈ m.hmac, b < 256)

def RequestTwSession.serialize (m : RequestTwSession) : List Nat :=
  CommandNumber.toU8 m.command_number :: (m.mbz_first * 16 + m.ipvn) ::
    m.conf_sender :: m.conf_receiver ::
    (natBytesBE 4 m.number_of_schedule_slots ++ natBytesBE 4 m.number_of_packets ++
      natBytesBE 2 m.sender_port ++ natBytesBE 2 m.receiver_port ++
      natBytesBE 4 m.sender_address ++ m.sender_address_cont ++
      natBytesBE 4 m.receiver_address ++ m.receiver_address_cont ++
      natBytesBE 16 m.sid ++ natBytesBE 4 m.padding_length ++
      TimeStamp.serialize m.start_time ++ natBytesBE 8 m.timeout ++
      natBytesBE 4 m.type_p_descriptor ++ natBytesBE 2 m.octets_to_be_reflected ++
      natBytesBE 2 m.length_of_padding_to_reflect ++ natBytesBE 4 m.mbz_last ++
      m.hmac)

def RequestTwSession.parse (bs : List Nat) : Option RequestTwSession :=
  match readCommandNumber CommandNumber.RequestTwSession bs with
  | none => none
  | some (_, bs1) =>
    match readU8 bs1 with
    | none => none
    | some (b, bs2) =>
      if b / 16 ≠ 0 then none else
      match readU8 bs2 with
      | none => none
      | some (conf_sender, bs3) =>
        match readU8 bs3 with
        | none => none
        | some (conf_receiver, bs4) =>
          match readBE 4 bs4 with
          | none => none
          | some (slots, bs5) =>
            match readBE 4 bs5 with
            | none => none
            | some (packets, bs6) =>
              match readBE 2 bs6 with
              | none => none
              | some (sender_port, bs7) =>
                match readBE 2 bs7 with
                | none => none
                | some (receiver_port, bs8) =>
                  match readBE 4 bs8 with
                  | none => none
                  | some (sender_address, bs9) =>
                    match readBytes 12 bs9 with
                    | none => none
                    | some (sender_address_cont, bs10) =>
                      match readBE 4 bs10 with
                      | none => none
                      | some (receiver_address, bs11) =>
                        match readBytes 12 bs11 with
                        | none => none
                        | some (receiver_address_cont, bs12) =>
                          match readBE 16 bs12 with
                          | none => none
                          | some (sid, bs13) =>
                            match readBE 4 bs13 with
                            | none => none
                            | some (padding_length, bs14) =>
                              match readTimeStamp bs14 with
                              | none => none
                              | some (start_time, bs15) =>
                                match readBE 8 bs15 with
                                | none => none
                                | some (timeout, bs16) =>
                                  match readBE 4 bs16 with
                                  | none => none
                                  | some (type_p, bs17) =>
                                    match readBE 2 bs17 with
                                    | none => none
                                    | some (octets, bs18) =>
                                      match readBE 2 bs18 with
                                      | none => none
                                      | some (lpad, bs19) =>
                                        match readBE 4 bs19 with
                                        | none => none
                                        | some (mbz_last, bs20) =>
                                          if mbz_last ≠ 0 then none else
                                          match readBytes 16 bs20 with
                                          | none => none
                                          | some (hmac, _) =>
                                            some ⟨CommandNumber.RequestTwSession, 0,
                                              b % 16, conf_sender, conf_receiver,
                                              slots, packets, sender_port,
                                              receiver_port, sender_address,
                                              sender_address_cont, receiver_address,
                                              receiver_address_cont, sid,
                                              padding_length, start_time, timeout,
                                              type_p, octets, lpad, 0, hmac⟩

theorem requestTwSession_parse_serialize (m : RequestTwSession) (rest : List Nat)
    (h : m.wf) :
    RequestTwSession.parse (RequestTwSession.serialize m ++ rest) = some m := by
  obtain ⟨cmd, mbz_first, ipvn, conf_sender, conf_receiver, slots, packets, sp, rp,
    sa, sac, ra, rac, sid, pl, st, tmo, tp, octs, lpr, mbzl, hmac⟩ := m
  obtain ⟨hcmd, hmbz1, hipvn, hcs, hcr, hslots, hpkts, hsp, hrp, hsa, hsac, _, hra,
    hrac, _, hsid, hpl, hst, htmo, htp, hocts, hlpr, hmbzl, hhmac, _⟩ := h
  simp only at hcmd hmbz1 hipvn hcs hcr hslots hpkts hsp hrp hsa hsac hra hrac hsid hpl hst htmo htp hocts hlpr hmbzl hhmac
  subst hcmd hmbz1 hmbzl
  unfold RequestTwSession.parse RequestTwSession.serialize
  simp only [List.append_assoc, List.cons_append, List.nil_append]
  rw [readCommandNumber_cons]
  simp only [readU8]
  rw [if_neg (by omega)]
  rw [readBE_append 4 _ _ (by norm_num; omega)]
  simp only
  rw [readBE_append 4 _ _ (by norm_num; omega)]
  simp only
  rw [readBE_append 2 _ _ (by norm_num; omega)]
  simp only
  rw [readBE_append 2 _ _ (by norm_num; omega)]
  simp only
  rw [readBE_append 4 _ _ (by norm_num; omega)]
  simp only
  rw [readBytes_append 12 _ _ hsac]
  simp only
  rw [readBE_append 4 _ _ (by norm_num; omega)]
  simp only
  rw [readBytes_append 12 _ _ hrac]
  simp only
  rw [readBE_append 16 _ _ (by norm_num; omega)]
  simp only
  rw [readBE_append 4 _ _ (by norm_num; omega)]
  simp only
  rw [readTimeStamp_append _ _ hst]
  simp only
  rw [readBE_append 8 _ _ (by norm_num; omega)]
  simp only
  rw [readBE_append 4 _ _ (by norm_num; omega)]
  simp only
  rw [readBE_append 2 _ _ (by norm_num; omega)]
  simp only
  rw [readBE_append 2 _ _ (by norm_num; omega)]
  simp only
  rw [readBE_append 4 _ _ (by norm_num)]
  simp only [if_neg]
  rw [readBytes_append 16 _ _ hhmac]
  simp only
  simp [Nat.mod_eq_of_lt hipvn]

theorem requestTwSession_serialize_length (m : RequestTwSession) (h : m.wf) :
    (RequestTwSession.serialize m).length = RequestTwSession.SERIALIZED_SIZE := by
  obtain ⟨_, _, _, _, _, _, _, _, _, _, hsac, _, _, hrac, _, _, _, _, _, _, _, _, _,
    hhmac, _⟩ := h
  simp [RequestTwSession.serialize, RequestTwSession.SERIALIZED_SIZE, hsac, hrac,
    hhmac, TimeStamp.serialize, natBytesBE_length]

/-- Accept-Session, 48 octets, from twamp_control/accept_session.rs. -/
structure AcceptSession where
  accept : Accept
  mbz_first : Nat
  port : Nat
  sid : List Nat
  reflected_octets : Nat
  server_octets : Nat
  mbz_second : List Nat
  hmac : List Nat
deriving DecidableEq, Repr

/-- Size constant from the repository's unit tests and the spec's table. -/
def AcceptSession.SERIALIZED_SIZE : Nat := 48

def AcceptSession.wf (m : AcceptSession) : Prop :=
  m.mbz_first = 0 ∧ m.port < 65536 ∧
  m.sid.length = 16 ∧ (∀ b ∈ m.sid, b < 256) ∧
  m.reflected_octets < 65536 ∧ m.server_octets < 65536 ∧
  m.mbz_second = List.replicate 8 0 ∧
  m.hmac.length = 16 ∧ (∀ b ∈ m.hmac, b < 256)

/-- Constructor from twamp_control/accept_session.rs: sid and hmac are zero. -/
def AcceptSession.new (accept : Accept) (port reflected_octets server_octets : Nat) :
    AcceptSession :=
  ⟨accept, 0, port, List.replicate 16 0, reflected_octets, server_octets,
    List.replicate 8 0, List.replicate 16 0⟩

def AcceptSession.serialize (m : AcceptSession) : List Nat :=
  Accept.toU8 m.accept :: m.mbz_first ::
    (natBytesBE 2 m.port ++ m.sid ++ natBytesBE 2 m.reflected_octets ++
      natBytesBE 2 m.server_octets ++ m.mbz_second ++ m.hmac)

def AcceptSession.parse (bs : List Nat) : Option AcceptSession :=
  match readAccept bs with
  | none => none
  | some (accept, bs1) =>
    match readU8 bs1 with
    | none => none
    | some (b, bs2) =>
      if b ≠ 0 then none else
      match readBE 2 bs2 with
      | none => none
      | some (port, bs3) =>
        match readBytes 16 bs3 with
        | none => none
        | some (sid, bs4) =>
          match readBE 2 bs4 with
          | none => none
          | some (reflected_octets, bs5) =>
            match readBE 2 bs5 with
            | none => none
            | some (server_octets, bs6) =>
              match expectZeros 8 bs6 with
              | none => none
              | some bs7 =>
                match readBytes 16 bs7 with
                | none => none
                | some (hmac, _) =>
                  some ⟨accept, 0, port, sid, reflected_octets, server_octets,
                    List.replicate 8 0, hmac⟩

theorem acceptSession_parse_serialize (m : AcceptSession) (rest : List Nat)
    (h : m.wf) : AcceptSession.parse (AcceptSession.serialize m ++ rest) = some m := by
  obtain ⟨accept, mbz_first, port, sid, ro, so, mbz_second, hmac⟩ := m
  obtain ⟨h1, hp, hsid, _, hro, hso, hz, hhmac, _⟩ := h
  simp only at h1 hp hsid hro hso hz hhmac
  subst h1 hz
  unfold AcceptSession.parse AcceptSession.serialize
  simp only [List.append_assoc, List.cons_append, List.nil_append]
  rw [readAccept_cons]
  simp only [readU8]
  rw [if_neg (by omega)]
  rw [readBE_append 2 _ _ (by norm_num; omega)]
  simp only
  rw [readBytes_append 16 _ _ hsid]
  simp only
  rw [readBE_append 2 _ _ (by norm_num; omega)]
  simp only
  rw [readBE_append 2 _ _ (by norm_num; omega)]
  simp only
  rw [expectZeros_append]
  simp only
  rw [readBytes_append 16 _ _ hhmac]

theorem acceptSession_serialize_length (m : AcceptSession) (h : m.wf) :
    (AcceptSession.serialize m).length = AcceptSession.SERIALIZED_SIZE := by
  obtain ⟨_, _, hsid, _, _, _, hz, hhmac, _⟩ := h
  simp [AcceptSession.serialize, AcceptSession.SERIALIZED_SIZE, hsid, hz, hhmac,
    natBytesBE_length]

/-- Start-Sessions, 32 octets, from twamp-control start_sessions.rs. -/
structure StartSessions where
  command_number : CommandNumber
  mbz : List Nat
  hmac : List Nat
deriving DecidableEq, Repr

/-- Size constant from the repository's unit tests and the spec's table. -/
def StartSessions.SERIALIZED_SIZE : Nat := 32

def StartSessions.wf (m : StartSessions) : Prop :=
  m.command_number = CommandNumber.StartSessions ∧ m.mbz = List.replicate 15 0 ∧
  m.hmac.length = 16 ∧ (∀ b ∈ m.hmac, b < 256)

/-- Constructor from start_sessions.rs. -/
def StartSessions.new : StartSessions :=
  ⟨CommandNumber.StartSessions, List.replicate 15 0, List.replicate 16 0⟩

def StartSessions.serialize (m : StartSessions) : List Nat :=
  CommandNumber.toU8 m.command_number :: (m.mbz ++ m.hmac)

def StartSessions.parse (bs : List Nat) : Option StartSessions :=
  match readCommandNumber CommandNumber.StartSessions bs with
  | none => none
  | some (_, bs1) =>
    match expectZeros 15 bs1 with
    | none => none
    | some bs2 =>
      match readBytes 16 bs2 with
      | none => none
      | some (hmac, _) =>
        some ⟨CommandNumber.StartSessions, List.replicate 15 0, hmac⟩

theorem startSessions_parse_serialize (m : StartSessions) (rest : List Nat)
    (h : m.wf) : StartSessions.parse (StartSessions.serialize m ++ rest) = some m := by
  obtain ⟨cmd, mbz, hmac⟩ := m
  obtain ⟨h1, hz, hhmac, _⟩ := h
  simp only at h1 hz hhmac
  subst h1 hz
  unfold StartSessions.parse StartSessions.serialize
  simp only [List.append_assoc, List.cons_append, List.nil_append]
  rw [readCommandNumber_cons]
  simp only
  rw [expectZeros_append]
  simp only
  rw [readBytes_append 16 _ _ hhmac]

theorem startSessions_serialize_length (m : StartSessions) (h : m.wf) :
    (StartSessions.serialize m).length = StartSessions.SERIALIZED_SIZE := by
  obtain ⟨_, hz, hhmac, _⟩ := h
  simp [StartSessions.serialize, StartSessions.SERIALIZED_SIZE, hz, hhmac]

/-- Start-Ack, 32 octets, from twamp-control start_ack.rs.  Its mbz block
carries no deku assertion: it is read back without a zero check. -/
structure StartAck where
  accept : Accept
  mbz : List Nat
  hmac : List Nat
deriving DecidableEq, Repr

/-- Size constant from the repository's unit tests and the spec's table. -/
def StartAck.SERIALIZED_SIZE : Nat := 32

def StartAck.wf (m : StartAck) : Prop :=
  m.mbz.length = 15 ∧ (∀ b ∈ m.mbz, b < 256) ∧
  m.hmac.length = 16 ∧ (∀ b ∈ m.hmac, b < 256)

/-- Constructor from start_ack.rs. -/
def StartAck.new (accept : Accept) : StartAck :=
  ⟨accept, List.replicate 15 0, List.replicate 16 0⟩

def StartAck.serialize (m : StartAck) : List Nat :=
  Accept.toU8 m.accept :: (m.mbz ++ m.hmac)

def StartAck.parse (bs : List Nat) : Option StartAck :=
  match readAccept bs with
  | none => none
  | some (accept, bs1) =>
    match readBytes 15 bs1 with
    | none => none
    | some (mbz, bs2) =>
      match readBytes 16 bs2 with
      | none => none
      | some (hmac, _) => some ⟨accept, mbz, hmac⟩

theorem startAck_parse_serialize (m : StartAck) (rest : List Nat)
    (h : m.wf) : StartAck.parse (StartAck.serialize m ++ rest) = some m := by
  obtain ⟨accept, mbz, hmac⟩ := m
  obtain ⟨hz, _, hhmac, _⟩ := h
  simp only at hz hhmac
  unfold StartAck.parse StartAck.serialize
  simp only [List.append_assoc, List.cons_append, List.nil_append]
  rw [readAccept_cons]
  simp only
  rw [readBytes_append 15 _ _ hz]
  simp only
  rw [readBytes_append 16 _ _ hhmac]

theorem startAck_serialize_length (m : StartAck) (h : m.wf) :
    (StartAck.serialize m).length = StartAck.SERIALIZED_SIZE := by
  obtain ⟨hz, _, hhmac, _⟩ := h
  simp [StartAck.serialize, StartAck.SERIALIZED_SIZE, hz, hhmac]

/-- Stop-Sessions, 20 octets, from twamp_control/stop_sessions.rs. -/
structure StopSessions where
  command_number : CommandNumber
  accept : Accept
  mbz : Nat
  hmac : List Nat
deriving DecidableEq, Repr

/-- Size constant from the repository's unit tests and the spec's table. -/
def StopSessions.SERIALIZED_SIZE : Nat := 20

def StopSessions.wf (m : StopSessions) : Prop :=
  m.command_number = CommandNumber.StopSessions ∧ m.mbz = 0 ∧
  m.hmac.length = 16 ∧ (∀ b ∈ m.hmac, b < 256)

/-- Constructor from stop_sessions.rs. -/
def StopSessions.new (accept : Accept) : StopSessions :=
  ⟨CommandNumber.StopSessions, accept, 0, List.replicate 16 0⟩

def StopSessions.serialize (m : StopSessions) : List Nat :=
  CommandNumber.toU8 m.command_number :: Accept.toU8 m.accept ::
    (natBytesBE 2 m.mbz ++ m.hmac)

def StopSessions.parse (bs : List Nat) : Option StopSessions :=
  match readCommandNumber CommandNumber.StopSessions bs with
  | none => none
  | some (_, bs1) =>
    match readAccept bs1 with
    | none => none
    | some (accept, bs2) =>
      match readBE 2 bs2 with
      | none => none
      | some (mbz, bs3) =>
        if mbz ≠ 0 then none else
        match readBytes 16 bs3 with
        | none => none
        | some (hmac, _) =>
          some ⟨CommandNumber.StopSessions, accept, 0, hmac⟩

theorem stopSessions_parse_serialize (m : StopSessions) (rest : List Nat)
    (h : m.wf) : StopSessions.parse (StopSessions.serialize m ++ rest) = some m := by
  obtain ⟨cmd, accept, mbz, hmac⟩ := m
  obtain ⟨h1, hz, hhmac, _⟩ := h
  simp only at h1 hz hhmac
  subst h1 hz
  unfold StopSessions.parse StopSessions.serialize
  simp only [List.append_assoc, List.cons_append, List.nil_append]
  rw [readCommandNumber_cons]
  simp only
  rw [readAccept_cons]
  simp only
  rw [readBE_append 2 _ _ (by norm_num)]
  simp only
  rw [readBytes_append 16 _ _ hhmac]
  simp

theorem stopSessions_serialize_length (m : StopSessions) (h : m.wf) :
    (StopSessions.serialize m).length = StopSessions.SERIALIZED_SIZE := by
  obtain ⟨_, _, hhmac, _⟩ := h
  simp [StopSessions.serialize, StopSessions.SERIALIZED_SIZE, hhmac, natBytesBE_length]

/-- Unauthenticated TWAMP-Test sender packet from
twamp_test/twamp_test_unauth.rs.  The packet_padding field is written as-is
(its length may be 0 to 27) but is always read back as exactly 27 octets
(the deku count attribute is the constant 27). -/
structure TwampTestPacketUnauth where
  sequence_number : Nat
  timestamp : TimeStamp
  error_estimate : ErrorEstimate
  packet_padding : List Nat
deriving DecidableEq, Repr

/-- Declared size of the packet with its full 27-octet tail, from the
spec's message table: 4 + 8 + 2 + 27. -/
def TwampTestPacketUnauth.SERIALIZED_SIZE : Nat := 41

def TwampTestPacketUnauth.wf (m : TwampTestPacketUnauth) : Prop :=
  m.sequence_number < 4294967296 ∧ m.timestamp.wf ∧ m.error_estimate.wf ∧
  m.packet_padding.length ≤ 27 ∧ (∀ b ∈ m.packet_padding, b < 256)

/-- Constructor from twamp_test/twamp_test_unauth.rs; the wall-clock sample
taken by TimeStamp default is passed explicitly as now.  Padding longer
than 27 is clamped to 27; the padding bytes are zero. -/
def TwampTestPacketUnauth.new (sequence_number : Nat) (padding_length : Nat)
    (is_ntp_synchronized : Bool) (now : TimeStamp) : TwampTestPacketUnauth :=
  { sequence_number := sequence_number
    timestamp := now
    error_estimate := ErrorEstimate.new is_ntp_synchronized
    packet_padding :=
      List.replicate (if padding_length > 27 then 27 else padding_length) 0 }

def TwampTestPacketUnauth.serialize (m : TwampTestPacketUnauth) : List Nat :=
  natBytesBE 4 m.sequence_number ++ TimeStamp.serialize m.timestamp ++
    ErrorEstimate.serialize m.error_estimate ++ m.packet_padding

def TwampTestPacketUnauth.parse (bs : List Nat) : Option TwampTestPacketUnauth :=
  match readBE 4 bs with
  | none => none
  | some (sequence_number, bs1) =>
    match readTimeStamp bs1 with
    | none => none
    | some (timestamp, bs2) =>
      match readErrorEstimate bs2 with
      | none => none
      | some (error_estimate, bs3) =>
        match readBytes 27 bs3 with
        | none => none
        | some (packet_padding, _) =>
          some ⟨sequence_number, timestamp, error_estimate, packet_padding⟩

theorem twampTestUnauth_parse_serialize (m : TwampTestPacketUnauth)
    (rest : List Nat) (h : m.wf) (hpad : m.packet_padding.length = 27) :
    TwampTestPacketUnauth.parse (TwampTestPacketUnauth.serialize m ++ rest) = some m := by
  obtain ⟨seq, ts, ee, pad⟩ := m
  obtain ⟨hseq, hts, hee, _, _⟩ := h
  simp only at hseq hts hee hpad
  unfold TwampTestPacketUnauth.parse TwampTestPacketUnauth.serialize
  simp only [List.append_assoc]
  rw [readBE_append 4 _ _ (by norm_num; omega)]
  simp only
  rw [readTimeStamp_append _ _ hts]
  simp only
  rw [readErrorEstimate_append _ _ hee]
  simp only
  rw [readBytes_append 27 _ _ hpad]

theorem twampTestUnauth_serialize_length (m : TwampTestPacketUnauth) :
    (TwampTestPacketUnauth.serialize m).length = 14 + m.packet_padding.length := by
  simp [TwampTestPacketUnauth.serialize, TimeStamp.serialize,
    ErrorEstimate.serialize, natBytesBE_length]
  omega

/-- Unauthenticated TWAMP-Test reflected packet from
twamp_test/twamp_test_unauth_reflected.rs. -/
structure TwampTestPacketUnauthReflected where
  sequence_number : Nat
  timestamp : TimeStamp
  error_estimate : ErrorEstimate
  mbz_first : Nat
  receive_timestamp : TimeStamp
  sender_sequence_number : Nat
  sender_timestamp : TimeStamp
  error_estimate_sender : ErrorEstimate
  mbz_second : Nat
  sender_ttl : Nat
  packet_padding : List Nat
deriving DecidableEq, Repr

def TwampTestPacketUnauthReflected.wf (m : TwampTestPacketUnauthReflected) : Prop :=
  m.sequence_number < 4294967296 ∧ m.timestamp.wf ∧ m.error_estimate.wf ∧
  m.mbz_first = 0 ∧ m.receive_timestamp.wf ∧
  m.sender_sequence_number < 4294967296 ∧ m.sender_timestamp.wf ∧
  m.error_estimate_sender.wf ∧ m.mbz_second = 0 ∧ m.sender_ttl < 256 ∧
  m.packet_padding.length ≤ 27 ∧ (∀ b ∈ m.packet_padding, b < 256)

/-- Constructor from twamp_test/twamp_test_unauth_reflected.rs; the
wall-clock sample taken by TimeStamp default for the transmit timestamp is
passed explicitly as now.  The sender sequence number, timestamp and error
estimate are copied from the received packet; sender_ttl is the hard-coded
placeholder 255; the padding is empty. -/
def TwampTestPacketUnauthReflected.new (seq : Nat)
    (twamp_test_pkt : TwampTestPacketUnauth) (recv_ts now : TimeStamp) :
    TwampTestPacketUnauthReflected :=
  { sequence_number := seq
    timestamp := now
    error_estimate := ErrorEstimate.new true
    mbz_first := 0
    receive_timestamp := recv_ts
    sender_sequence_number := twamp_test_pkt.sequence_number
    sender_timestamp := twamp_test_pkt.timestamp
    error_estimate_sender := twamp_test_pkt.error_estimate
    mbz_second := 0
    sender_ttl := 255
    packet_padding := [] }

def TwampTestPacketUnauthReflected.serialize
    (m : TwampTestPacketUnauthReflected) : List Nat :=
  natBytesBE 4 m.sequence_number ++ TimeStamp.serialize m.timestamp ++
    ErrorEstimate.serialize m.error_estimate ++ natBytesBE 2 m.mbz_first ++
    TimeStamp.serialize m.receive_timestamp ++
    natBytesBE 4 m.sender_sequence_number ++
    TimeStamp.serialize m.sender_timestamp ++
    ErrorEstimate.serialize m.error_estimate_sender ++
    natBytesBE 2 m.mbz_second ++ [m.sender_ttl] ++ m.packet_padding

def TwampTestPacketUnauthReflected.parse (bs : List Nat) :
    Option TwampTestPacketUnauthReflected :=
  match readBE 4 bs with
  | none => none
  | some (sequence_number, bs1) =>
    match readTimeStamp bs1 with
    | none => none
    | some (timestamp, bs2) =>
      match readErrorEstimate bs2 with
      | none => none
      | some (error_estimate, bs3) =>
        match readBE 2 bs3 with
        | none => none
        | some (mbz_first, bs4) =>
          if mbz_first ≠ 0 then none else
          match readTimeStamp bs4 with
          | none => none
          | some (receive_timestamp, bs5) =>
            match readBE 4 bs5 with
            | none => none
            | some (sender_sequence_number, bs6) =>
              match readTimeStamp bs6 with
              | none => none
              | some (sender_timestamp, bs7) =>
                match readErrorEstimate bs7 with
                | none => none
                | some (error_estimate_sender, bs8) =>
                  match readBE 2 bs8 with
                  | none => none
                  | some (mbz_second, bs9) =>
                    if mbz_second ≠ 0 then none else
                    match readU8 bs9 with
                    | none => none
                    | some (sender_ttl, bs10) =>
                      match readBytes 27 bs10 with
                      | none => none
                      | some (packet_padding, _) =>
                        some ⟨sequence_number, timestamp, error_estimate, 0,
                          receive_timestamp, sender_sequence_number,
                          sender_timestamp, error_estimate_sender, 0,
                          sender_ttl, packet_padding⟩

theorem readBytes_exact (n : Nat) (xs : List Nat) (h : xs.length = n) :
    readBytes n xs = some (xs, []) := by
  subst h
  simp [readBytes]

theorem readBytes_short (n : Nat) (bs : List Nat) (h : bs.length < n) :
    readBytes n bs = none := by
  simp [readBytes]
  omega

theorem expectZeros_fail_exact (n : Nat) (xs : List Nat) (h : xs.length = n)
    (hne : xs ≠ List.replicate n 0) : expectZeros n xs = none := by
  unfold expectZeros
  rw [readBytes_exact n _ h]
  simp [hne]

theorem twampTestReflected_parse_serialize
    (m : TwampTestPacketUnauthReflected) (rest : List Nat) (h : m.wf)
    (hpad : m.packet_padding.length = 27) :
    TwampTestPacketUnauthReflected.parse
      (TwampTestPacketUnauthReflected.serialize m ++ rest) = some m := by
  obtain ⟨seq, ts, ee, mbz1, rts, ssn, sts, ees, mbz2, ttl, pad⟩ := m
  obtain ⟨hseq, hts, hee, hm1, hrts, hssn, hsts, hees, hm2, httl, _, _⟩ := h
  simp only at hseq hts hee hm1 hrts hssn hsts hees hm2 httl hpad
  subst hm1 hm2
  unfold TwampTestPacketUnauthReflected.parse TwampTestPacketUnauthReflected.serialize
  simp only [List.append_assoc, List.cons_append, List.nil_append]
  rw [readBE_append 4 _ _ (by norm_num; omega)]
  simp only
  rw [readTimeStamp_append _ _ hts]
  simp only
  rw [readErrorEstimate_append _ _ hee]
  simp only
  rw [readBE_append 2 _ _ (by norm_num)]
  simp only
  rw [readTimeStamp_append _ _ hrts]
  simp only
  rw [readBE_append 4 _ _ (by norm_num; omega)]
  simp only
  rw [readTimeStamp_append _ _ hsts]
  simp only
  rw [readErrorEstimate_append _ _ hees]
  simp only
  rw [readBE_append 2 _ _ (by norm_num)]
  simp only [readU8]
  rw [readBytes_append 27 _ _ hpad]
  simp

/-- Events the Control-Client emits during do_twamp_control: messages
written to the TCP stream and one-shot signals sent to Session-Sender. -/
inductive ClientEvent where
  | SentSetUpResponse
  | SentRequestTwSession
  | SignalReflectorPort (port : Nat)
  | SentStartSessions
  | SignalStartSession
  | SentStopSessions
deriving DecidableEq, Repr

/-- How a do_twamp_control run ends early, from control_client/mod.rs.
read_server_greeting unwraps its parse with expect, a panic rather than a
typed error; the Server-Start, Accept-Session and Start-Ack parse failures
are mapped to ControlClientError WireConversionError; the two accept-field
checks return anyhow errors naming Accept-Session and Start-Ack. -/
inductive ControlClientErr where
  | ServerGreetingParsePanic
  | WireConversionServerStart
  | WireConversionAcceptSession
  | AcceptSessionNotOk
  | WireConversionStartAck
  | StartAckNotOk
deriving DecidableEq, Repr

/-- The TWAMP-Control dialogue of ControlClient.do_twamp_control from
control_client/mod.rs, over the byte images read for the four inbound
messages.  The parsed Server-Start value is discarded without inspecting
its accept field, exactly as the source does; the Accept-Session and
Start-Ack accept fields are checked.  The returned trace lists the emitted
messages and signals in order, and the second component is the error the
function returns, none on success. -/
def ControlClient.doTwampControl
    (greetingBytes serverStartBytes acceptSessionBytes startAckBytes : List Nat) :
    List ClientEvent × Option ControlClientErr :=
  match ServerGreeting.parse greetingBytes with
  | none => ([], some .ServerGreetingParsePanic)
  | some _ =>
    match ServerStart.parse serverStartBytes with
    | none => ([.SentSetUpResponse], some .WireConversionServerStart)
    | some _ =>
      match AcceptSession.parse acceptSessionBytes with
      | none =>
        ([.SentSetUpResponse, .SentRequestTwSession],
          some .WireConversionAcceptSession)
      | some accept_session =>
        if accept_session.accept ≠ Accept.Ok then
          ([.SentSetUpResponse, .SentRequestTwSession], some .AcceptSessionNotOk)
        else
          match StartAck.parse startAckBytes with
          | none =>
            ([.SentSetUpResponse, .SentRequestTwSession,
              .SignalReflectorPort accept_session.port, .SentStartSessions],
              some .WireConversionStartAck)
          | some start_ack =>
            if start_ack.accept ≠ Accept.Ok then
              ([.SentSetUpResponse, .SentRequestTwSession,
                .SignalReflectorPort accept_session.port, .SentStartSessions],
                some .StartAckNotOk)
            else
              ([.SentSetUpResponse, .SentRequestTwSession,
                .SignalReflectorPort accept_session.port, .SentStartSessions,
                .SignalStartSession, .SentStopSessions], none)

/-- Events the Server emits during handle_control_client: messages written
to the TCP stream and one-shot signals sent to the Session-Reflector task. -/
inductive ServerEvent where
  | SentServerGreeting
  | SentServerStart
  | SignalRequest (request : RequestTwSession)
  | SentAcceptSession (accept : Accept) (port : Nat)
  | SignalTimeout (timeout : Nat)
  | SentStartAck
  | SignalStartAckSent
  | SignalStopSessions
deriving DecidableEq, Repr

/-- How a handle_control_client run ends early, from server/mod.rs. -/
inductive ServerErr where
  | WireConversionSetUpResponse
  | WireConversionRequestTwSession
  | WireConversionStartSessions
  | WireConversionStopSessions
deriving DecidableEq, Repr

/-- Server.handle_control_client from server/mod.rs, over the byte images
read for the four inbound messages and the port value received over the
bound-port one-shot channel from the Session-Reflector task.  The Server
sends Accept-Session with accept Ok and the received port, then forwards
the request timeout over the timeout channel. -/
def Server.handleControlClient
    (setUpResponseBytes requestBytes startSessionsBytes stopSessionsBytes : List Nat)
    (boundPort : Nat) : List ServerEvent × Option ServerErr :=
  match SetUpResponse.parse setUpResponseBytes with
  | none => ([.SentServerGreeting], some .WireConversionSetUpResponse)
  | some _ =>
    match RequestTwSession.parse requestBytes with
    | none =>
      ([.SentServerGreeting, .SentServerStart], some .WireConversionRequestTwSession)
    | some request =>
      match StartSessions.parse startSessionsBytes with
      | none =>
        ([.SentServerGreeting, .SentServerStart, .SignalRequest request,
          .SentAcceptSession Accept.Ok boundPort, .SignalTimeout request.timeout],
          some .WireConversionStartSessions)
      | some _ =>
        match StopSessions.parse stopSessionsBytes with
        | none =>
          ([.SentServerGreeting, .SentServerStart, .SignalRequest request,
            .SentAcceptSession Accept.Ok boundPort, .SignalTimeout request.timeout,
            .SentStartAck, .SignalStartAckSent], some .WireConversionStopSessions)
        | some _ =>
          ([.SentServerGreeting, .SentServerStart, .SignalRequest request,
            .SentAcceptSession Accept.Ok boundPort, .SignalTimeout request.timeout,
            .SentStartAck, .SignalStartAckSent, .SignalStopSessions], none)

/-- The port the Session-Reflector task binds and reports over the
bound-port one-shot channel, from the responder example: it binds the UDP
socket to the receiver_port requested in Request-TW-Session, and when that
bind fails it rebinds with port 0 and the operating system assigns a port.
Whether the requested port is available, and which port the OS assigns,
are abstracted as parameters. -/
def SessionReflector.boundPort (requestedPortAvailable : Bool)
    (request : RequestTwSession) (osAssignedPort : Nat) : Nat :=
  if requestedPortAvailable then request.receiver_port else osAssignedPort

/-- How SessionReflector.do_reflect ends, from session_reflector/mod.rs:
either the per-datagram refwait timeout expires carrying the count of
packets processed so far, or a received datagram fails to parse. -/
inductive SessionReflectorErr where
  | RefwaitTimeout (refwait : Nat) (pkts_processed : Nat)
  | WireConversionError
deriving DecidableEq, Repr

/-- The reflect loop of SessionReflector.do_reflect from
session_reflector/mod.rs.  The input list holds the contents of the receive
buffer for each datagram that arrives before the refwait timeout fires; the
clock function supplies, per iteration, the receive timestamp sampled after
recv returns and the transmit timestamp sampled when the reflected packet is
constructed.  Each received buffer is parsed as a TwampTestPacketUnauth; on
success a reflected packet is built with the loop counter as its own
sequence number and sent, and the counter increments; a parse failure ends
the loop with a wire-conversion error; when the datagrams are exhausted the
refwait timeout fires. -/
def SessionReflector.doReflect (clock : Nat → TimeStamp × TimeStamp)
    (refwait : Nat) :
    Nat → List (List Nat) → List TwampTestPacketUnauthReflected × SessionReflectorErr
  | i, [] => ([], .RefwaitTimeout refwait i)
  | i, d :: ds =>
    match TwampTestPacketUnauth.parse d with
    | none => ([], .WireConversionError)
    | some pkt =>
      let reflected :=
        TwampTestPacketUnauthReflected.new i pkt (clock i).1 (clock i).2
      let result := SessionReflector.doReflect clock refwait (i + 1) ds
      (reflected :: result.1, result.2)

theorem doReflect_get (clock : Nat → TimeStamp × TimeStamp) (refwait : Nat)
    (ds : List (List Nat)) : ∀ (k i : Nat)
    (hi : i < (SessionReflector.doReflect clock refwait k ds).1.length),
    ∃ (hd : i < ds.length) (p : TwampTestPacketUnauth),
      TwampTestPacketUnauth.parse (ds.get ⟨i, hd⟩) = some p ∧
      ((SessionReflector.doReflect clock refwait k ds).1.get ⟨i, hi⟩ =
        TwampTestPacketUnauthReflected.new (k + i) p (clock (k + i)).1
          (clock (k + i)).2) := by
  induction ds with
  | nil => intro k i hi; simp [SessionReflector.doReflect] at hi
  | cons d ds ih =>
    intro k i hi
    rcases hp : TwampTestPacketUnauth.parse d with _ | p
    · simp only [SessionReflector.doReflect, hp] at hi
      simp at hi
    · cases i with
      | zero =>
        refine ⟨by simp, p, hp, ?_⟩
        simp [SessionReflector.doReflect, hp]
      | succ j =>
        have hstep : SessionReflector.doReflect clock refwait k (d :: ds) =
            (TwampTestPacketUnauthReflected.new k p (clock k).1 (clock k).2 ::
              (SessionReflector.doReflect clock refwait (k + 1) ds).1,
             (SessionReflector.doReflect clock refwait (k + 1) ds).2) := by
          simp [SessionReflector.doReflect, hp]
        rw [hstep] at hi
        simp only [List.length_cons, Nat.succ_lt_succ_iff] at hi
        obtain ⟨hd, q, hq, hget⟩ := ih (k + 1) j hi
        refine ⟨Nat.succ_lt_succ hd, q, hq, ?_⟩
        have hfst : (SessionReflector.doReflect clock refwait k (d :: ds)).1 =
            TwampTestPacketUnauthReflected.new k p (clock k).1 (clock k).2 ::
              (SessionReflector.doReflect clock refwait (k + 1) ds).1 :=
          congrArg Prod.fst hstep
        have harith : k + (j + 1) = k + 1 + j := by omega
        rw [harith, List.get_of_eq hfst]
        exact hget

/-- A concrete Server Greeting advertising Unauthenticated with count 1024
(the values ServerGreeting new uses, with zero challenge and salt). -/
def sampleServerGreeting : ServerGreeting :=
  ⟨List.replicate 12 0, 1, List.replicate 16 0, List.replicate 16 0, 1024,
    List.replicate 12 0⟩

/-- A concrete Server-Start with the given accept value. -/
def sampleServerStart (a : Accept) : ServerStart :=
  ⟨List.replicate 15 0, a, List.replicate 16 0, ⟨100, 200⟩, List.replicate 8 0⟩

/-- A concrete Accept-Session carrying port 4000. -/
def sampleAcceptSession (a : Accept) : AcceptSession := AcceptSession.new a 4000 0 0

/-- The Set-Up-Response the Control-Client sends in unauthenticated mode. -/
def sampleSetUpResponse : SetUpResponse :=
  ⟨SecurityMode.Unauthenticated, List.replicate 80 0, List.replicate 64 0,
    List.replicate 16 0⟩

/-- A concrete Request-TW-Session for 127.0.0.1 with timeout 900. -/
def sampleRequestTwSession : RequestTwSession :=
  ⟨CommandNumber.RequestTwSession, 0, 4, 0, 0, 0, 0, 5000, 6000, 2130706433,
    List.replicate 12 0, 2130706433, List.replicate 12 0, 0, 0, ⟨100, 200⟩, 900,
    0, 0, 0, 0, List.replicate 16 0⟩

/-- A concrete sender test packet with sequence number 7 and a full
27-octet zero tail. -/
def sampleTestPacket : TwampTestPacketUnauth :=
  ⟨7, ⟨100, 200⟩, ErrorEstimate.new true, List.replicate 27 0⟩

/-- Claim C9: constructing an ErrorEstimate with ntp_synchronized true
serializes to the bytes 0x80 0x01 (S=1, MBZ=0, scale=0, multiplier=1), and
with false to 0x3F 0xFF (S=0, MBZ=0, scale=63, multiplier=255). -/
theorem claim9_error_estimate_encoding :
    ErrorEstimate.serialize (ErrorEstimate.new true) = [128, 1] ∧
    ErrorEstimate.serialize (ErrorEstimate.new false) = [63, 255] := by
  decide

/-- Claim C10: SetUpResponse.new returns ok exactly for the Reserved and
Unauthenticated modes, and a descriptive error value (not a panic, the
function is total) for Authenticated, Encrypted and
EncryptedControlUnauthTest. -/
theorem claim10_set_up_response_new :
    ∀ mode : SecurityMode,
      ((∃ m, SetUpResponse.new mode = Except.ok m) ↔
        (mode = SecurityMode.Reserved ∨ mode = SecurityMode.Unauthenticated)) ∧
      ((∃ e, SetUpResponse.new mode = Except.error e) ↔
        ¬(mode = SecurityMode.Reserved ∨ mode = SecurityMode.Unauthenticated)) := by
  intro mode
  cases mode <;> simp [SetUpResponse.new]

/-- Claim C2 as stated is false on the code: with a = (5, 1) and
b = (0, 2^32 - 2) the integer parts do not overflow when added, yet
((a + b) - b) is (4, 1): the Add impl adds one to the fractional sum
unconditionally, here wrapping the fraction to zero without an integer
carry, and the subtraction then borrows from the integer part. -/
theorem claim2_counterexample :
    (TimeStamp.mk 5 1).wf ∧ (TimeStamp.mk 0 4294967294).wf ∧
    (5 : Nat) + 0 < 4294967296 ∧
    ((TimeStamp.mk 5 1).add (TimeStamp.mk 0 4294967294)).sub
      (TimeStamp.mk 0 4294967294) = TimeStamp.mk 4 1 ∧
    (4 : Nat) ≠ 5 := by
  decide

/-- Claim C2 amended: for TimeStamp values a and b whose integer parts do
not overflow when added, and additionally whose fractional parts do not sum
to exactly 2^32 - 1 and with a's fractional part below 2^32 - 1,
(a + b) - b has exactly a's integer part and a fractional part equal to a's
or one more (one least-significant unit). -/
theorem claim2_add_sub_cancel (a b : TimeStamp) (ha : a.wf) (hb : b.wf)
    (hno : a.integer_part_of_seconds + b.integer_part_of_seconds < 4294967296)
    (hf1 : a.fractional_part_of_seconds + b.fractional_part_of_seconds ≠ 4294967295)
    (hf2 : a.fractional_part_of_seconds ≠ 4294967295) :
    ((a.add b).sub b).integer_part_of_seconds = a.integer_part_of_seconds ∧
    (((a.add b).sub b).fractional_part_of_seconds = a.fractional_part_of_seconds ∨
      ((a.add b).sub b).fractional_part_of_seconds =
        a.fractional_part_of_seconds + 1) := by
  obtain ⟨ai, af⟩ := a
  obtain ⟨bi, bf⟩ := b
  obtain ⟨ha1, ha2⟩ := ha
  obtain ⟨hb1, hb2⟩ := hb
  simp only at ha1 ha2 hb1 hb2 hno hf1 hf2
  simp only [TimeStamp.add, TimeStamp.sub]
  split_ifs <;> simp only <;> omega

/-- Claim C2 witness at a = (5, 10), b = (2, 20): the result is (5, 11). -/
theorem claim2_witness :
    (((TimeStamp.mk 5 10).add (TimeStamp.mk 2 20)).sub
        (TimeStamp.mk 2 20)).integer_part_of_seconds = 5 ∧
    ((((TimeStamp.mk 5 10).add (TimeStamp.mk 2 20)).sub
        (TimeStamp.mk 2 20)).fractional_part_of_seconds = 10 ∨
      (((TimeStamp.mk 5 10).add (TimeStamp.mk 2 20)).sub
        (TimeStamp.mk 2 20)).fractional_part_of_seconds = 10 + 1) :=
  claim2_add_sub_cancel ⟨5, 10⟩ ⟨2, 20⟩ (by decide) (by decide) (by decide)
    (by decide) (by decide)

/-- Claim C3 as stated is false on the code: fed a well-formed Server-Start
whose accept is Failure (and otherwise valid messages), do_twamp_control
returns no error and its trace contains Request-TW-Session: the parsed
Server-Start is discarded without checking its accept field. -/
theorem claim3_counterexample :
    ServerStart.parse (ServerStart.serialize (sampleServerStart Accept.Failure)) =
      some (sampleServerStart Accept.Failure) ∧
    (sampleServerStart Accept.Failure).accept ≠ Accept.Ok ∧
    (ControlClient.doTwampControl (ServerGreeting.serialize sampleServerGreeting)
      (ServerStart.serialize (sampleServerStart Accept.Failure))
      (AcceptSession.serialize (sampleAcceptSession Accept.Ok))
      (StartAck.serialize (StartAck.new Accept.Ok))).2 = none ∧
    ClientEvent.SentRequestTwSession ∈
      (ControlClient.doTwampControl (ServerGreeting.serialize sampleServerGreeting)
        (ServerStart.serialize (sampleServerStart Accept.Failure))
        (AcceptSession.serialize (sampleAcceptSession Accept.Ok))
        (StartAck.serialize (StartAck.new Accept.Ok))).1 := by
  decide

/-- Claim C3 amended: in the AwaitStart phase the Control-Client does not
validate Server-Start's accept field: whenever the Server-Start image
parses successfully — whatever its accept value — it proceeds to emit
Request-TW-Session; it aborts before Request-TW-Session, with a typed
wire-conversion error, exactly when the image fails to parse. -/
theorem claim3_server_start_not_validated :
    (∀ gB ssB asB saB (g : ServerGreeting) (ss : ServerStart),
      ServerGreeting.parse gB = some g → ServerStart.parse ssB = some ss →
      ClientEvent.SentRequestTwSession ∈
        (ControlClient.doTwampControl gB ssB asB saB).1) ∧
    (∀ gB ssB asB saB (g : ServerGreeting),
      ServerGreeting.parse gB = some g → ServerStart.parse ssB = none →
      ControlClient.doTwampControl gB ssB asB saB =
        ([ClientEvent.SentSetUpResponse],
          some ControlClientErr.WireConversionServerStart)) := by
  constructor
  · intro gB ssB asB saB g ss hg hss
    unfold ControlClient.doTwampControl
    rw [hg, hss]
    rcases AcceptSession.parse asB with _ | as_
    · simp
    · by_cases hac : as_.accept = Accept.Ok
      · rcases StartAck.parse saB with _ | sa
        · simp [hac]
        · by_cases hsa : sa.accept = Accept.Ok <;> simp [hac, hsa]
      · simp [hac]
  · intro gB ssB asB saB g hg hss
    unfold ControlClient.doTwampControl
    rw [hg, hss]

/-- Claim C3 witness: the amended statement applied to the concrete
transcript whose Server-Start carries accept Failure. -/
theorem claim3_witness :
    ClientEvent.SentRequestTwSession ∈
      (ControlClient.doTwampControl (ServerGreeting.serialize sampleServerGreeting)
        (ServerStart.serialize (sampleServerStart Accept.Failure))
        (AcceptSession.serialize (sampleAcceptSession Accept.Ok))
        (StartAck.serialize (StartAck.new Accept.Ok))).1 :=
  claim3_server_start_not_validated.1 _ _ _ _ sampleServerGreeting
    (sampleServerStart Accept.Failure) (by decide) (by decide)

/-- Claim C7: when the Accept-Session read by the Control-Client parses
with accept different from Ok, do_twamp_control returns the protocol error
naming Accept-Session, and its trace contains no reflector-port signal, no
Start-Sessions message and no start signal. -/
theorem claim7_accept_session_not_ok (gB ssB asB saB : List Nat)
    (g : ServerGreeting) (ss : ServerStart) (acc : AcceptSession)
    (hg : ServerGreeting.parse gB = some g)
    (hss : ServerStart.parse ssB = some ss)
    (hacc : AcceptSession.parse asB = some acc)
    (hne : acc.accept ≠ Accept.Ok) :
    (ControlClient.doTwampControl gB ssB asB saB).2 =
      some ControlClientErr.AcceptSessionNotOk ∧
    (∀ p, ClientEvent.SignalReflectorPort p ∉
      (ControlClient.doTwampControl gB ssB asB saB).1) ∧
    ClientEvent.SentStartSessions ∉
      (ControlClient.doTwampControl gB ssB asB saB).1 ∧
    ClientEvent.SignalStartSession ∉
      (ControlClient.doTwampControl gB ssB asB saB).1 := by
  unfold ControlClient.doTwampControl
  rw [hg, hss, hacc]
  simp only
  rw [if_pos hne]
  simp

/-- Claim C7 witness: the concrete transcript whose Accept-Session carries
accept Failure. -/
theorem claim7_witness :
    (ControlClient.doTwampControl (ServerGreeting.serialize sampleServerGreeting)
      (ServerStart.serialize (sampleServerStart Accept.Ok))
      (AcceptSession.serialize (sampleAcceptSession Accept.Failure))
      (StartAck.serialize (StartAck.new Accept.Ok))).2 =
      some ControlClientErr.AcceptSessionNotOk ∧
    (∀ p, ClientEvent.SignalReflectorPort p ∉
      (ControlClient.doTwampControl (ServerGreeting.serialize sampleServerGreeting)
        (ServerStart.serialize (sampleServerStart Accept.Ok))
        (AcceptSession.serialize (sampleAcceptSession Accept.Failure))
        (StartAck.serialize (StartAck.new Accept.Ok))).1) ∧
    ClientEvent.SentStartSessions ∉
      (ControlClient.doTwampControl (ServerGreeting.serialize sampleServerGreeting)
        (ServerStart.serialize (sampleServerStart Accept.Ok))
        (AcceptSession.serialize (sampleAcceptSession Accept.Failure))
        (StartAck.serialize (StartAck.new Accept.Ok))).1 ∧
    ClientEvent.SignalStartSession ∉
      (ControlClient.doTwampControl (ServerGreeting.serialize sampleServerGreeting)
        (ServerStart.serialize (sampleServerStart Accept.Ok))
        (AcceptSession.serialize (sampleAcceptSession Accept.Failure))
        (StartAck.serialize (StartAck.new Accept.Ok))).1 :=
  claim7_accept_session_not_ok _ _ _ _ sampleServerGreeting
    (sampleServerStart Accept.Ok) (sampleAcceptSession Accept.Failure)
    (by decide) (by decide) (by decide) (by decide)

/-- Claim C6: the Accept-Session the Server emits carries accept Ok and the
port received over the bound-port channel from the Session-Reflector, which
is the requested receiver_port when the bind succeeds and the OS-assigned
port otherwise. -/
theorem claim6_accept_session_port (suB reqB stB spB : List Nat)
    (requestedPortAvailable : Bool) (osAssignedPort : Nat)
    (su : SetUpResponse) (req : RequestTwSession)
    (hsu : SetUpResponse.parse suB = some su)
    (hreq : RequestTwSession.parse reqB = some req) :
    ServerEvent.SentAcceptSession Accept.Ok
        (SessionReflector.boundPort requestedPortAvailable req osAssignedPort) ∈
      (Server.handleControlClient suB reqB stB spB
        (SessionReflector.boundPort requestedPortAvailable req osAssignedPort)).1 ∧
    (requestedPortAvailable = true →
      SessionReflector.boundPort requestedPortAvailable req osAssignedPort =
        req.receiver_port) ∧
    (requestedPortAvailable = false →
      SessionReflector.boundPort requestedPortAvailable req osAssignedPort =
        osAssignedPort) := by
  refine ⟨?_, ?_, ?_⟩
  · unfold Server.handleControlClient
    rw [hsu, hreq]
    rcases StartSessions.parse stB with _ | st
    · simp
    · rcases StopSessions.parse spB with _ | sp <;> simp
  · intro h; simp [SessionReflector.boundPort, h]
  · intro h; simp [SessionReflector.boundPort, h]

/-- Claim C6 witness: concrete transcript, requested port unavailable, OS
assigns 55555; the emitted Accept-Session carries Ok and 55555. -/
theorem claim6_witness :
    ServerEvent.SentAcceptSession Accept.Ok
        (SessionReflector.boundPort false sampleRequestTwSession 55555) ∈
      (Server.handleControlClient (SetUpResponse.serialize sampleSetUpResponse)
        (RequestTwSession.serialize sampleRequestTwSession)
        (StartSessions.serialize StartSessions.new)
        (StopSessions.serialize (StopSessions.new Accept.Ok))
        (SessionReflector.boundPort false sampleRequestTwSession 55555)).1 ∧
    (false = true →
      SessionReflector.boundPort false sampleRequestTwSession 55555 =
        sampleRequestTwSession.receiver_port) ∧
    (false = false →
      SessionReflector.boundPort false sampleRequestTwSession 55555 = 55555) :=
  claim6_accept_session_port _ _ _ _ false 55555 sampleSetUpResponse
    sampleRequestTwSession (by decide) (by decide)

/-- Claim C8: in any run of the reflect loop, the i-th reflected packet
carries sequence number i, and its sender_sequence_number, sender_timestamp
and error_estimate_sender equal the corresponding fields of the i-th
successfully parsed received packet, whatever sequence number it carried. -/
theorem claim8_reflector_pairing (clock : Nat → TimeStamp × TimeStamp)
    (refwait : Nat) (ds : List (List Nat)) (i : Nat)
    (hi : i < (SessionReflector.doReflect clock refwait 0 ds).1.length) :
    ∃ (hd : i < ds.length) (p : TwampTestPacketUnauth),
      TwampTestPacketUnauth.parse (ds.get ⟨i, hd⟩) = some p ∧
      ((SessionReflector.doReflect clock refwait 0 ds).1.get
        ⟨i, hi⟩).sequence_number = i ∧
      ((SessionReflector.doReflect clock refwait 0 ds).1.get
        ⟨i, hi⟩).sender_sequence_number = p.sequence_number ∧
      ((SessionReflector.doReflect clock refwait 0 ds).1.get
        ⟨i, hi⟩).sender_timestamp = p.timestamp ∧
      ((SessionReflector.doReflect clock refwait 0 ds).1.get
        ⟨i, hi⟩).error_estimate_sender = p.error_estimate := by
  obtain ⟨hd, p, hp, hget⟩ := doReflect_get clock refwait ds 0 i hi
  refine ⟨hd, p, hp, ?_, ?_, ?_, ?_⟩ <;>
    rw [hget] <;> simp [TwampTestPacketUnauthReflected.new]

/-- Claim C8 witness: a single received datagram carrying sender sequence 7
is reflected with own sequence 0 and sender_sequence_number 7. -/
theorem claim8_witness :
    ∃ (hd : 0 < [TwampTestPacketUnauth.serialize sampleTestPacket].length)
      (p : TwampTestPacketUnauth),
      TwampTestPacketUnauth.parse
        ([TwampTestPacketUnauth.serialize sampleTestPacket].get ⟨0, hd⟩) = some p ∧
      ((SessionReflector.doReflect (fun _ => (⟨0, 0⟩, ⟨0, 0⟩)) 900 0
        [TwampTestPacketUnauth.serialize sampleTestPacket]).1.get
        ⟨0, by decide⟩).sequence_number = 0 ∧
      ((SessionReflector.doReflect (fun _ => (⟨0, 0⟩, ⟨0, 0⟩)) 900 0
        [TwampTestPacketUnauth.serialize sampleTestPacket]).1.get
        ⟨0, by decide⟩).sender_sequence_number = p.sequence_number ∧
      ((SessionReflector.doReflect (fun _ => (⟨0, 0⟩, ⟨0, 0⟩)) 900 0
        [TwampTestPacketUnauth.serialize sampleTestPacket]).1.get
        ⟨0, by decide⟩).sender_timestamp = p.timestamp ∧
      ((SessionReflector.doReflect (fun _ => (⟨0, 0⟩, ⟨0, 0⟩)) 900 0
        [TwampTestPacketUnauth.serialize sampleTestPacket]).1.get
        ⟨0, by decide⟩).error_estimate_sender = p.error_estimate :=
  claim8_reflector_pairing (fun _ => (⟨0, 0⟩, ⟨0, 0⟩)) 900
    [TwampTestPacketUnauth.serialize sampleTestPacket] 0 (by decide)

instance (m : ServerGreeting) : Decidable m.wf := by
  unfold ServerGreeting.wf; infer_instance

instance (m : SetUpResponse) : Decidable m.wf := by
  unfold SetUpResponse.wf; infer_instance

instance (m : ServerStart) : Decidable m.wf := by
  unfold ServerStart.wf; infer_instance

instance (m : RequestTwSession) : Decidable m.wf := by
  unfold RequestTwSession.wf; infer_instance

instance (m : AcceptSession) : Decidable m.wf := by
  unfold AcceptSession.wf; infer_instance

instance (m : StartSessions) : Decidable m.wf := by
  unfold StartSessions.wf; infer_instance

instance (m : StartAck) : Decidable m.wf := by
  unfold StartAck.wf; infer_instance

instance (m : StopSessions) : Decidable m.wf := by
  unfold StopSessions.wf; infer_instance

instance (m : TwampTestPacketUnauth) : Decidable m.wf := by
  unfold TwampTestPacketUnauth.wf; infer_instance

instance (m : TwampTestPacketUnauthReflected) : Decidable m.wf := by
  unfold TwampTestPacketUnauthReflected.wf; infer_instance

/-- Claim C1 amended: parse after serialize is the identity and the
serialized length equals the declared size for every control message; for
the unauthenticated test packet this holds when packet_padding has length
exactly 27 (serialized size 41), while for any shorter padding the
serialization has 14 + length octets and re-parsing fails, because parsing
always consumes a 27-octet tail. -/
theorem claim1_codec_roundtrip :
    (∀ m : ServerGreeting, m.wf →
      ServerGreeting.parse (ServerGreeting.serialize m) = some m ∧
      (ServerGreeting.serialize m).length = ServerGreeting.SERIALIZED_SIZE) ∧
    (∀ m : SetUpResponse, m.wf →
      SetUpResponse.parse (SetUpResponse.serialize m) = some m ∧
      (SetUpResponse.serialize m).length = SetUpResponse.SERIALIZED_SIZE) ∧
    (∀ m : ServerStart, m.wf →
      ServerStart.parse (ServerStart.serialize m) = some m ∧
      (ServerStart.serialize m).length = ServerStart.SERIALIZED_SIZE) ∧
    (∀ m : RequestTwSession, m.wf →
      RequestTwSession.parse (RequestTwSession.serialize m) = some m ∧
      (RequestTwSession.serialize m).length = RequestTwSession.SERIALIZED_SIZE) ∧
    (∀ m : AcceptSession, m.wf →
      AcceptSession.parse (AcceptSession.serialize m) = some m ∧
      (AcceptSession.serialize m).length = AcceptSession.SERIALIZED_SIZE) ∧
    (∀ m : StartSessions, m.wf →
      StartSessions.parse (StartSessions.serialize m) = some m ∧
      (StartSessions.serialize m).length = StartSessions.SERIALIZED_SIZE) ∧
    (∀ m : StartAck, m.wf →
      StartAck.parse (StartAck.serialize m) = some m ∧
      (StartAck.serialize m).length = StartAck.SERIALIZED_SIZE) ∧
    (∀ m : StopSessions, m.wf →
      StopSessions.parse (StopSessions.serialize m) = some m ∧
      (StopSessions.serialize m).length = StopSessions.SERIALIZED_SIZE) ∧
    (∀ m : TwampTestPacketUnauth, m.wf → m.packet_padding.length = 27 →
      TwampTestPacketUnauth.parse (TwampTestPacketUnauth.serialize m) = some m ∧
      (TwampTestPacketUnauth.serialize m).length =
        TwampTestPacketUnauth.SERIALIZED_SIZE) ∧
    (∀ m : TwampTestPacketUnauth, m.wf → m.packet_padding.length < 27 →
      TwampTestPacketUnauth.parse (TwampTestPacketUnauth.serialize m) = none) := by
  refine ⟨?_, ?_, ?_, ?_, ?_, ?_, ?_, ?_, ?_, ?_⟩
  · intro m h
    refine ⟨?_, serverGreeting_serialize_length m h⟩
    have := serverGreeting_parse_serialize m [] h
    rwa [List.append_nil] at this
  · intro m h
    refine ⟨?_, setUpResponse_serialize_length m h⟩
    have := setUpResponse_parse_serialize m [] h
    rwa [List.append_nil] at this
  · intro m h
    refine ⟨?_, serverStart_serialize_length m h⟩
    have := serverStart_parse_serialize m [] h
    rwa [List.append_nil] at this
  · intro m h
    refine ⟨?_, requestTwSession_serialize_length m h⟩
    have := requestTwSession_parse_serialize m [] h
    rwa [List.append_nil] at this
  · intro m h
    refine ⟨?_, acceptSession_serialize_length m h⟩
    have := acceptSession_parse_serialize m [] h
    rwa [List.append_nil] at this
  · intro m h
    refine ⟨?_, startSessions_serialize_length m h⟩
    have := startSessions_parse_serialize m [] h
    rwa [List.append_nil] at this
  · intro m h
    refine ⟨?_, startAck_serialize_length m h⟩
    have := startAck_parse_serialize m [] h
    rwa [List.append_nil] at this
  · intro m h
    refine ⟨?_, stopSessions_serialize_length m h⟩
    have := stopSessions_parse_serialize m [] h
    rwa [List.append_nil] at this
  · intro m h hpad
    refine ⟨?_, ?_⟩
    · have := twampTestUnauth_parse_serialize m [] h hpad
      rwa [List.append_nil] at this
    · rw [twampTestUnauth_serialize_length m, hpad]
      decide
  · intro m h hpad
    obtain ⟨seq, ts, ee, pad⟩ := m
    obtain ⟨hseq, hts, hee, _, _⟩ := h
    simp only at hseq hts hee hpad
    unfold TwampTestPacketUnauth.parse TwampTestPacketUnauth.serialize
    simp only [List.append_assoc]
    rw [readBE_append 4 _ _ (by norm_num; omega)]
    simp only
    rw [readTimeStamp_append _ _ hts]
    simp only
    rw [readErrorEstimate_append _ _ hee]
    simp only
    rw [readBytes_short 27 _ hpad]

/-- Claim C1 as stated is false on the code: a valid test packet with
empty padding (the senders send padding length 0) serializes to 14 octets,
and parsing those bytes fails because the parser demands a 27-octet tail. -/
theorem claim1_counterexample :
    (TwampTestPacketUnauth.mk 0 ⟨0, 0⟩ (ErrorEstimate.new true) []).wf ∧
    (TwampTestPacketUnauth.serialize
      (TwampTestPacketUnauth.mk 0 ⟨0, 0⟩ (ErrorEstimate.new true) [])).length = 14 ∧
    TwampTestPacketUnauth.parse (TwampTestPacketUnauth.serialize
      (TwampTestPacketUnauth.mk 0 ⟨0, 0⟩ (ErrorEstimate.new true) [])) = none := by
  decide

/-- Claim C1 witness: the round trip at the concrete Server Greeting. -/
theorem claim1_witness :
    ServerGreeting.parse (ServerGreeting.serialize sampleServerGreeting) =
      some sampleServerGreeting ∧
    (ServerGreeting.serialize sampleServerGreeting).length =
      ServerGreeting.SERIALIZED_SIZE :=
  claim1_codec_roundtrip.1 sampleServerGreeting (by decide)

/-- A reflected packet whose two Error-Estimate fields carry multiplier 0,
with a full 27-octet tail as read from the zero-filled receive buffer. -/
def multiplierZeroReflected : TwampTestPacketUnauthReflected :=
  ⟨0, ⟨0, 0⟩, ⟨0, 0, 0, 0⟩, 0, ⟨0, 0⟩, 0, ⟨0, 0⟩, ⟨0, 0, 0, 0⟩, 0, 255,
    List.replicate 27 0⟩

/-- A sender test packet whose Error-Estimate carries multiplier 0. -/
def multiplierZeroTestPacket : TwampTestPacketUnauth :=
  ⟨0, ⟨0, 0⟩, ⟨0, 0, 0, 0⟩, List.replicate 27 0⟩

/-- Claim C5 as stated is false on the code: byte images whose
Error-Estimate multiplier byte is zero parse successfully, both as a
reflected packet (the SessionSender recv path) and as a TwampTestPacketUnauth
(the reflector path); no wire-conversion error is raised and the packet is
not discarded. -/
theorem claim5_counterexample :
    multiplierZeroReflected.error_estimate.multiplier = 0 ∧
    TwampTestPacketUnauthReflected.parse
      (TwampTestPacketUnauthReflected.serialize multiplierZeroReflected) =
      some multiplierZeroReflected ∧
    multiplierZeroTestPacket.error_estimate.multiplier = 0 ∧
    TwampTestPacketUnauth.parse
      (TwampTestPacketUnauth.serialize multiplierZeroTestPacket) =
      some multiplierZeroTestPacket := by
  decide

/-- Claim C5 amended: the parsers check only the Error-Estimate MBZ bit; a
multiplier of zero is accepted, so test packets and reflected packets whose
multiplier byte is zero parse successfully and are processed, not
discarded. -/
theorem claim5_multiplier_zero_accepted :
    (∀ p : TwampTestPacketUnauth, p.wf → p.packet_padding.length = 27 →
      p.error_estimate.multiplier = 0 →
      TwampTestPacketUnauth.parse (TwampTestPacketUnauth.serialize p) = some p) ∧
    (∀ r : TwampTestPacketUnauthReflected, r.wf → r.packet_padding.length = 27 →
      r.error_estimate.multiplier = 0 →
      TwampTestPacketUnauthReflected.parse
        (TwampTestPacketUnauthReflected.serialize r) = some r) := by
  constructor
  · intro p h hpad _
    have := twampTestUnauth_parse_serialize p [] h hpad
    rwa [List.append_nil] at this
  · intro r h hpad _
    have := twampTestReflected_parse_serialize r [] h hpad
    rwa [List.append_nil] at this

/-- Claim C5 witness: the amended statement at the concrete zero-multiplier
test packet. -/
theorem claim5_witness :
    TwampTestPacketUnauth.parse
      (TwampTestPacketUnauth.serialize multiplierZeroTestPacket) =
      some multiplierZeroTestPacket :=
  claim5_multiplier_zero_accepted.1 multiplierZeroTestPacket (by decide)
    (by decide) (by decide)

theorem serverGreeting_parse_fail_unused (u rest : List Nat)
    (hu : u.length = 12) (hne : u ≠ List.replicate 12 0) :
    ServerGreeting.parse (u ++ rest) = none := by
  unfold ServerGreeting.parse
  rw [expectZeros_fail 12 u rest hu hne]

theorem serverGreeting_parse_fail_mbz (m : ServerGreeting) (z : List Nat)
    (h : m.wf) (hz : z.length = 12) (hne : z ≠ List.replicate 12 0) :
    ServerGreeting.parse (ServerGreeting.serialize { m with mbz := z }) = none := by
  obtain ⟨u, mo, ch, sa, cnt, mb⟩ := m
  obtain ⟨hu, hmo, hch, _, hsa, _, hcnt, _⟩ := h
  simp only at hu hmo hch hsa hcnt
  subst hu
  unfold ServerGreeting.parse ServerGreeting.serialize
  simp only [List.append_assoc]
  rw [expectZeros_append]
  simp only
  rw [readBE_append 4 _ _ (by norm_num; omega)]
  simp only
  rw [readBytes_append 16 _ _ hch]
  simp only
  rw [readBytes_append 16 _ _ hsa]
  simp only
  rw [readBE_append 4 _ _ (by norm_num; omega)]
  simp only
  rw [expectZeros_fail_exact 12 z hz hne]

theorem serverStart_parse_fail_mbz_start (z rest : List Nat)
    (hz : z.length = 15) (hne : z ≠ List.replicate 15 0) :
    ServerStart.parse (z ++ rest) = none := by
  unfold ServerStart.parse
  rw [expectZeros_fail 15 z rest hz hne]

theorem serverStart_parse_fail_mbz_end (m : ServerStart) (z : List Nat)
    (h : m.wf) (hz : z.length = 8) (hne : z ≠ List.replicate 8 0) :
    ServerStart.parse (ServerStart.serialize { m with mbz_end := z }) = none := by
  obtain ⟨mb, acc, iv, st, me⟩ := m
  obtain ⟨hm, hiv, _, hst, _⟩ := h
  simp only at hm hiv hst
  subst hm
  unfold ServerStart.parse ServerStart.serialize
  simp only [List.append_assoc, List.cons_append, List.nil_append]
  rw [expectZeros_append]
  simp only
  rw [readAccept_cons]
  simp only
  rw [readBytes_append 16 _ _ hiv]
  simp only
  rw [readTimeStamp_append _ _ hst]
  simp only
  rw [expectZeros_fail_exact 8 z hz hne]

theorem requestTwSession_parse_fail_mbz_first (m : RequestTwSession) (b : Nat)
    (h : m.wf) (hb : b < 16) (hne : b ≠ 0) :
    RequestTwSession.parse (RequestTwSession.serialize { m with mbz_first := b }) =
      none := by
  obtain ⟨cmd, mbz_first, ipvn, conf_sender, conf_receiver, slots, packets, sp, rp,
    sa, sac, ra, rac, sid, pl, st, tmo, tp, octs, lpr, mbzl, hmac⟩ := m
  obtain ⟨hcmd, _, hipvn, _, _, _, _, _, _, _, _, _, _, _, _, _, _, _, _, _, _, _⟩ := h
  simp only at hcmd hipvn
  subst hcmd
  unfold RequestTwSession.parse RequestTwSession.serialize
  simp only [List.append_assoc, List.cons_append, List.nil_append]
  rw [readCommandNumber_cons]
  simp only [readU8]
  rw [if_pos (by omega)]

theorem requestTwSession_parse_fail_mbz_last (m : RequestTwSession) (v : Nat)
    (h : m.wf) (hv : v < 4294967296) (hne : v ≠ 0) :
    RequestTwSession.parse (RequestTwSession.serialize { m with mbz_last := v }) =
      none := by
  obtain ⟨cmd, mbz_first, ipvn, conf_sender, conf_receiver, slots, packets, sp, rp,
    sa, sac, ra, rac, sid, pl, st, tmo, tp, octs, lpr, mbzl, hmac⟩ := m
  obtain ⟨hcmd, hmbz1, hipvn, hcs, hcr, hslots, hpkts, hsp, hrp, hsa, hsac, _, hra, hrac, _, hsid, hpl, hst, htmo, htp, hocts, hlpr, _, hhmac, _⟩ := h
  simp only at hcmd hmbz1 hipvn hcs hcr hslots hpkts hsp hrp hsa hsac hra hrac hsid hpl hst htmo htp hocts hlpr hhmac
  subst hcmd hmbz1
  unfold RequestTwSession.parse RequestTwSession.serialize
  simp only [List.append_assoc, List.cons_append, List.nil_append]
  rw [readCommandNumber_cons]
  simp only [readU8]
  rw [if_neg (by omega)]
  rw [readBE_append 4 _ _ (by norm_num; omega)]
  simp only
  rw [readBE_append 4 _ _ (by norm_num; omega)]
  simp only
  rw [readBE_append 2 _ _ (by norm_num; omega)]
  simp only
  rw [readBE_append 2 _ _ (by norm_num; omega)]
  simp only
  rw [readBE_append 4 _ _ (by norm_num; omega)]
  simp only
  rw [readBytes_append 12 _ _ hsac]
  simp only
  rw [readBE_append 4 _ _ (by norm_num; omega)]
  simp only
  rw [readBytes_append 12 _ _ hrac]
  simp only
  rw [readBE_append 16 _ _ (by norm_num; omega)]
  simp only
  rw [readBE_append 4 _ _ (by norm_num; omega)]
  simp only
  rw [readTimeStamp_append _ _ hst]
  simp only
  rw [readBE_append 8 _ _ (by norm_num; omega)]
  simp only
  rw [readBE_append 4 _ _ (by norm_num; omega)]
  simp only
  rw [readBE_append 2 _ _ (by norm_num; omega)]
  simp only
  rw [readBE_append 2 _ _ (by norm_num; omega)]
  simp only
  rw [readBE_append 4 _ _ (by norm_num; omega)]
  simp only
  rw [if_pos hne]

theorem acceptSession_parse_fail_mbz_first (m : AcceptSession) (b : Nat)
    (h : m.wf) (hb : b < 256) (hne : b ≠ 0) :
    AcceptSession.parse (AcceptSession.serialize { m with mbz_first := b }) =
      none := by
  obtain ⟨acc, mb1, port, sid, ro, so, mb2, hmac⟩ := m
  unfold AcceptSession.parse AcceptSession.serialize
  simp only [List.append_assoc, List.cons_append, List.nil_append]
  rw [readAccept_cons]
  simp only [readU8]
  rw [if_pos hne]

theorem acceptSession_parse_fail_mbz_second (m : AcceptSession) (z : List Nat)
    (h : m.wf) (hz : z.length = 8) (hne : z ≠ List.replicate 8 0) :
    AcceptSession.parse (AcceptSession.serialize { m with mbz_second := z }) =
      none := by
  obtain ⟨acc, mb1, port, sid, ro, so, mb2, hmac⟩ := m
  obtain ⟨h1, hp, hsid, _, hro, hso, _, hhmac, _⟩ := h
  simp only at h1 hp hsid hro hso hhmac
  subst h1
  unfold AcceptSession.parse AcceptSession.serialize
  simp only [List.append_assoc, List.cons_append, List.nil_append]
  rw [readAccept_cons]
  simp only [readU8]
  rw [if_neg (by omega)]
  rw [readBE_append 2 _ _ (by norm_num; omega)]
  simp only
  rw [readBytes_append 16 _ _ hsid]
  simp only
  rw [readBE_append 2 _ _ (by norm_num; omega)]
  simp only
  rw [readBE_append 2 _ _ (by norm_num; omega)]
  simp only
  rw [expectZeros_fail 8 z _ hz hne]

theorem startSessions_parse_fail_mbz (m : StartSessions) (z : List Nat)
    (h : m.wf) (hz : z.length = 15) (hne : z ≠ List.replicate 15 0) :
    StartSessions.parse (StartSessions.serialize { m with mbz := z }) = none := by
  obtain ⟨cmd, mb, hmac⟩ := m
  obtain ⟨h1, _, hhmac, _⟩ := h
  simp only at h1 hhmac
  subst h1
  unfold StartSessions.parse StartSessions.serialize
  simp only [List.append_assoc, List.cons_append, List.nil_append]
  rw [readCommandNumber_cons]
  simp only
  rw [expectZeros_fail 15 z _ hz hne]

theorem stopSessions_parse_fail_mbz (m : StopSessions) (v : Nat)
    (h : m.wf) (hv : v < 65536) (hne : v ≠ 0) :
    StopSessions.parse (StopSessions.serialize { m with mbz := v }) = none := by
  obtain ⟨cmd, acc, mb, hmac⟩ := m
  obtain ⟨h1, _, hhmac, _⟩ := h
  simp only at h1 hhmac
  subst h1
  unfold StopSessions.parse StopSessions.serialize
  simp only [List.append_assoc, List.cons_append, List.nil_append]
  rw [readCommandNumber_cons]
  simp only
  rw [readAccept_cons]
  simp only
  rw [readBE_append 2 _ _ (by norm_num; omega)]
  simp only
  rw [if_pos hne]

theorem readErrorEstimate_fail_mbz (e : ErrorEstimate) (rest : List Nat)
    (hs : e.s < 2) (hsc : e.scale < 64) :
    readErrorEstimate (ErrorEstimate.serialize { e with mbz := 1 } ++ rest) =
      none := by
  obtain ⟨s, mb, sc, mult⟩ := e
  simp only at hs hsc
  unfold readErrorEstimate ErrorEstimate.serialize
  simp only [List.cons_append, List.nil_append]
  rw [if_neg (by omega)]

theorem twampTestReflected_parse_fail_mbz_first
    (m : TwampTestPacketUnauthReflected) (v : Nat) (h : m.wf)
    (hv : v < 65536) (hne : v ≠ 0) :
    TwampTestPacketUnauthReflected.parse
      (TwampTestPacketUnauthReflected.serialize { m with mbz_first := v }) =
      none := by
  obtain ⟨seq, ts, ee, mbz1, rts, ssn, sts, ees, mbz2, ttl, pad⟩ := m
  obtain ⟨hseq, hts, hee, _, hrts, hssn, hsts, hees, _, httl, _, _⟩ := h
  simp only at hseq hts hee hrts hssn hsts hees httl
  unfold TwampTestPacketUnauthReflected.parse TwampTestPacketUnauthReflected.serialize
  simp only [List.append_assoc, List.cons_append, List.nil_append]
  rw [readBE_append 4 _ _ (by norm_num; omega)]
  simp only
  rw [readTimeStamp_append _ _ hts]
  simp only
  rw [readErrorEstimate_append _ _ hee]
  simp only
  rw [readBE_append 2 _ _ (by norm_num; omega)]
  simp only
  rw [if_pos hne]

theorem twampTestReflected_parse_fail_mbz_second
    (m : TwampTestPacketUnauthReflected) (v : Nat) (h : m.wf)
    (hv : v < 65536) (hne : v ≠ 0) :
    TwampTestPacketUnauthReflected.parse
      (TwampTestPacketUnauthReflected.serialize { m with mbz_second := v }) =
      none := by
  obtain ⟨seq, ts, ee, mbz1, rts, ssn, sts, ees, mbz2, ttl, pad⟩ := m
  obtain ⟨hseq, hts, hee, hm1, hrts, hssn, hsts, hees, _, httl, _, _⟩ := h
  simp only at hseq hts hee hm1 hrts hssn hsts hees httl
  subst hm1
  unfold TwampTestPacketUnauthReflected.parse TwampTestPacketUnauthReflected.serialize
  simp only [List.append_assoc, List.cons_append, List.nil_append]
  rw [readBE_append 4 _ _ (by norm_num; omega)]
  simp only
  rw [readTimeStamp_append _ _ hts]
  simp only
  rw [readErrorEstimate_append _ _ hee]
  simp only
  rw [readBE_append 2 _ _ (by norm_num)]
  simp only
  rw [readTimeStamp_append _ _ hrts]
  simp only
  rw [readBE_append 4 _ _ (by norm_num; omega)]
  simp only
  rw [readTimeStamp_append _ _ hsts]
  simp only
  rw [readErrorEstimate_append _ _ hees]
  simp only
  rw [readBE_append 2 _ _ (by norm_num; omega)]
  simp only
  rw [if_pos hne]
  simp

theorem startAck_parse_mbz_unchecked (m : StartAck) (z : List Nat)
    (h : m.wf) (hz : z.length = 15) (hzb : ∀ b ∈ z, b < 256) :
    StartAck.parse (StartAck.serialize { m with mbz := z }) =
      some { m with mbz := z } := by
  obtain ⟨acc, mb, hmac⟩ := m
  obtain ⟨_, _, hh, hhb⟩ := h
  simp only at hh hhb
  have := startAck_parse_serialize ⟨acc, z, hmac⟩ [] ⟨hz, hzb, hh, hhb⟩
  rwa [List.append_nil] at this

/-- The Set-Up-Response image that is the valid unauthenticated instance
except that the first key_id byte is 1 (a key_id bit set on the wire). -/
def tamperedSetUpResponse : SetUpResponse :=
  ⟨SecurityMode.Unauthenticated, 1 :: List.replicate 79 0, List.replicate 64 0,
    List.replicate 16 0⟩

/-- Claim C4 as stated is false on the code: the byte image equal to the
serialization of the valid unauthenticated Set-Up-Response with one key_id
bit set (byte 4 set to 1) parses successfully into a message value; no
wire-conversion error is raised, because key_id, token and client_iv carry
no receive-side assertion. -/
theorem claim4_counterexample :
    SetUpResponse.serialize tamperedSetUpResponse =
      (SetUpResponse.serialize sampleSetUpResponse).set 4 1 ∧
    SetUpResponse.parse (SetUpResponse.serialize tamperedSetUpResponse) =
      some tamperedSetUpResponse := by
  decide

/-- Claim C4 amended: parsing rejects a nonzero image of every MBZ field
that carries a deku receive-side assertion — ServerGreeting's unused and
mbz blocks, Server-Start's leading and trailing mbz blocks,
Request-TW-Session's mbz nibble and trailing mbz word, Accept-Session's mbz
octet and mbz block, Start-Sessions' mbz block, Stop-Sessions' mbz word,
the Error-Estimate mbz bit, and both mbz words of the reflected test
packet — but not the fields without an assertion: Set-Up-Response's key_id,
token and client_iv and Start-Ack's mbz block are parsed without any zero
check, so images with bits set there still parse. -/
theorem claim4_mbz_rejection :
    (∀ u rest, u.length = 12 → u ≠ List.replicate 12 0 →
      ServerGreeting.parse (u ++ rest) = none) ∧
    (∀ (m : ServerGreeting) z, m.wf → z.length = 12 →
      z ≠ List.replicate 12 0 →
      ServerGreeting.parse (ServerGreeting.serialize { m with mbz := z }) = none) ∧
    (∀ z rest, z.length = 15 → z ≠ List.replicate 15 0 →
      ServerStart.parse (z ++ rest) = none) ∧
    (∀ (m : ServerStart) z, m.wf → z.length = 8 → z ≠ List.replicate 8 0 →
      ServerStart.parse (ServerStart.serialize { m with mbz_end := z }) = none) ∧
    (∀ (m : RequestTwSession) b, m.wf → b < 16 → b ≠ 0 →
      RequestTwSession.parse
        (RequestTwSession.serialize { m with mbz_first := b }) = none) ∧
    (∀ (m : RequestTwSession) v, m.wf → v < 4294967296 → v ≠ 0 →
      RequestTwSession.parse
        (RequestTwSession.serialize { m with mbz_last := v }) = none) ∧
    (∀ (m : AcceptSession) b, m.wf → b < 256 → b ≠ 0 →
      AcceptSession.parse
        (AcceptSession.serialize { m with mbz_first := b }) = none) ∧
    (∀ (m : AcceptSession) z, m.wf → z.length = 8 → z ≠ List.replicate 8 0 →
      AcceptSession.parse
        (AcceptSession.serialize { m with mbz_second := z }) = none) ∧
    (∀ (m : StartSessions) z, m.wf → z.length = 15 → z ≠ List.replicate 15 0 →
      StartSessions.parse (StartSessions.serialize { m with mbz := z }) = none) ∧
    (∀ (m : StopSessions) v, m.wf → v < 65536 → v ≠ 0 →
      StopSessions.parse (StopSessions.serialize { m with mbz := v }) = none) ∧
    (∀ (e : ErrorEstimate) rest, e.s < 2 → e.scale < 64 →
      readErrorEstimate (ErrorEstimate.serialize { e with mbz := 1 } ++ rest) =
        none) ∧
    (∀ (m : TwampTestPacketUnauthReflected) v, m.wf → v < 65536 → v ≠ 0 →
      TwampTestPacketUnauthReflected.parse
        (TwampTestPacketUnauthReflected.serialize { m with mbz_first := v }) =
        none) ∧
    (∀ (m : TwampTestPacketUnauthReflected) v, m.wf → v < 65536 → v ≠ 0 →
      TwampTestPacketUnauthReflected.parse
        (TwampTestPacketUnauthReflected.serialize { m with mbz_second := v }) =
        none) ∧
    (∀ m : SetUpResponse, m.wf →
      SetUpResponse.parse (SetUpResponse.serialize m) = some m) ∧
    (∀ (m : StartAck) z, m.wf → z.length = 15 → (∀ b ∈ z, b < 256) →
      StartAck.parse (StartAck.serialize { m with mbz := z }) =
        some { m with mbz := z }) := by
  refine ⟨serverGreeting_parse_fail_unused,
    serverGreeting_parse_fail_mbz,
    serverStart_parse_fail_mbz_start,
    serverStart_parse_fail_mbz_end,
    requestTwSession_parse_fail_mbz_first,
    requestTwSession_parse_fail_mbz_last,
    acceptSession_parse_fail_mbz_first,
    acceptSession_parse_fail_mbz_second,
    startSessions_parse_fail_mbz,
    stopSessions_parse_fail_mbz,
    readErrorEstimate_fail_mbz,
    twampTestReflected_parse_fail_mbz_first,
    twampTestReflected_parse_fail_mbz_second,
    ?_,
    startAck_parse_mbz_unchecked⟩
  intro m h
  have := setUpResponse_parse_serialize m [] h
  rwa [List.append_nil] at this

/-- Claim C4 witness: a Server Greeting image whose first unused byte is 1
is rejected. -/
theorem claim4_witness :
    ServerGreeting.parse ((1 :: List.replicate 11 0) ++ List.replicate 52 0) =
      none :=
  claim4_mbz_rejection.1 (1 :: List.replicate 11 0) (List.replicate 52 0)
    (by decide) (by decide)
